import Mathlib

/-!
# ESP32 anomaly node (`esp32_enhanced.cpp`)

A shallow embedding of the sketch: the configuration constants, the two
blocking connection loops (`setup_wifi`, `reconnect_mqtt`), `setup` and one
`loop` tick.  Every call into a library (WiFi, PubSubClient, TensorFlow Lite
Micro, NeoPixel, the PRNG) is recorded as an `Event`; the values such a call
returns are read from an `Env`, one stream per call site kind, so that the
network, the broker, the sensors and the classifier may behave in any way.
Loops that may block forever take a fuel argument and return `none` when it
runs out.  `loop` gives the calls of a tick whose behaviour the C language
defines; `loop_checked` and `run_checked` follow the node up to the first
statement that leaves that ground (a write through the tensors of a failed
allocation, a `sprintf` past the end of `msg`).
-/

namespace Esp32Enhanced

/-! ## Configuration (lines 10-33) -/

def ssid : String := "YOUR_WIFI_SSID"
def password : String := "YOUR_WIFI_PASSWORD"
def mqtt_server : String := "bf0c2aed638d4a048ca7768d70b23253.s1.eu.hivemq.cloud"
def mqtt_port : Nat := 8883
def mqtt_username : String := "Esp32_C6"
def mqtt_password : String := "Miniproject1"
def mqtt_topic : String := "tinyml/anomaly"

/-- The three identity strings `node_id`, `floor_id`, `zone_id` (lines 20-22). -/
structure NodeIdentity where
  node_id : String
  floor_id : String
  zone_id : String

/-- The identity the sketch is configured with. -/
def configured : NodeIdentity :=
  { node_id := "Node1A", floor_id := "Floor 1", zone_id := "Zone A" }

def NEOPIXEL_PIN : Nat := 8
def NUM_PIXELS : Nat := 1
def kTensorArenaSize : Nat := 8 * 1024

/-- Size in bytes of the local buffer `char msg[150]` of `loop` (line 102). -/
def msg_size : Nat := 150

/-! ## Values -/

/-- The value of a C `float`: a NaN, an infinity, or a finite number (every
finite IEEE-754 datum is a rational). -/
inductive CFloat where
  | nan
  | negInf
  | posInf
  | finite (q : ℚ)

/-- The comparison `x > c` of a float with a finite constant: it is false on a
NaN, and the usual order otherwise. -/
def CFloat.gt (x : CFloat) (c : ℚ) : Bool :=
  match x with
  | CFloat.nan => false
  | CFloat.negInf => false
  | CFloat.posInf => true
  | CFloat.finite q => decide (q > c)

/-! ## `sprintf` -/

/-- An argument of `sprintf`: a C string (`%s`) or an `int` (`%d`). -/
inductive Arg where
  | str (s : String)
  | int (i : Int)

/-- What `%d` prints: the decimal digits, after a minus sign when negative. -/
def dec (i : Int) : String :=
  if i < 0 then "-" ++ Nat.repr i.natAbs else Nat.repr i.toNat

/-- Expansion of a format: `%s` and `%d` take the next argument, every other
character is copied. -/
def vformat : List Char → List Arg → List Char
  | '%' :: 's' :: cs, Arg.str s :: as => s.data ++ vformat cs as
  | '%' :: 'd' :: cs, Arg.int i :: as => (dec i).data ++ vformat cs as
  | c :: cs, as => c :: vformat cs as
  | [], _ => []

/-- The text `sprintf(buf, fmt, args...)` formats (without the final NUL).  It
is the text alone: whether it fits the buffer it is written to is the matter of
`msg_store`. -/
def sprintf (fmt : String) (args : List Arg) : String :=
  String.mk (vformat fmt.data args)

/-! ## Events and environment -/

/-- One call into a library, with the value it returned where the sketch can
see one. -/
inductive Event where
  | serial_begin (baud : Nat)
  | rgb_begin
  | wifi_begin (ssid pass : String)
  | wifi_status (associated : Bool)
  | delay (ms : Nat)
  | serial_print (s : String)
  | serial_println (s : String)
  | set_insecure
  | set_server (host : String) (port : Nat)
  | get_model
  | add_fully_connected
  | add_relu
  | add_logistic
  | new_interpreter (arena : Nat)
  | allocate_tensors (ok : Bool)
  | bind_input
  | bind_output
  | client_connected (live : Bool)
  | client_connect (id user pass : String) (ok : Bool)
  | client_loop
  | random (lo hi : Int) (r : Int)
  | input_set (i : Nat) (v : Int)
  | invoke
  | output_get (score : CFloat)
  | set_pixel_color (n r g b : Nat)
  | client_publish (topic msg : String) (ok : Bool)
  | rgb_show

/-- The behaviour of everything outside the sketch.  The `k`-th call of each
kind returns the `k`-th element of its stream. -/
structure Env where
  /-- Whether `WiFi.status() == WL_CONNECTED`. -/
  wifi_status : Nat → Bool
  /-- Result of `client.connected()`. -/
  client_connected : Nat → Bool
  /-- Result of `client.connect(node_id, mqtt_username, mqtt_password)`. -/
  client_connect : Nat → Bool
  /-- The raw draw behind `random(lo, hi)`. -/
  random_raw : Nat → Nat
  /-- Value of `output->data.f[0]` after `interpreter->Invoke()`. -/
  output : Nat → CFloat
  /-- Result of `client.publish(mqtt_topic, msg)`. -/
  client_publish : Nat → Bool
  /-- Whether `interpreter->AllocateTensors() == kTfLiteOk`. -/
  allocate_ok : Bool

/-- How many calls of each kind have been made so far. -/
structure Cursor where
  wifi : Nat
  probe : Nat
  conn : Nat
  rand : Nat
  inv : Nat
  pub : Nat

def Cursor.start : Cursor :=
  { wifi := 0, probe := 0, conn := 0, rand := 0, inv := 0, pub := 0 }

/-- Arduino `random(lo, hi)`: `lo` when the range is empty, otherwise `lo` plus
the raw draw reduced modulo `hi - lo`. -/
def random (env : Env) (lo hi : Int) (k : Nat) : Int :=
  if lo ≥ hi then lo else lo + Int.ofNat (env.random_raw k % (hi - lo).toNat)

/-! ## The sketch -/

/-- The `while (WiFi.status() != WL_CONNECTED)` loop of `setup_wifi`
(lines 40-43). -/
def wifi_wait (env : Env) : Nat → Cursor → Option (List Event × Cursor)
  | 0, _ => none
  | fuel + 1, cur =>
    let associated := env.wifi_status cur.wifi
    let cur1 := { cur with wifi := cur.wifi + 1 }
    if associated then some ([Event.wifi_status true], cur1)
    else
      match wifi_wait env fuel cur1 with
      | none => none
      | some (evs, cur2) =>
        some (Event.wifi_status false :: Event.delay 500 :: Event.serial_print "." :: evs, cur2)

/-- The function `setup_wifi` (lines 38-45). -/
def setup_wifi (env : Env) (fuel : Nat) (cur : Cursor) : Option (List Event × Cursor) :=
  match wifi_wait env fuel cur with
  | none => none
  | some (evs, cur1) =>
    some (Event.wifi_begin ssid password :: evs ++ [Event.serial_println "WiFi connected"], cur1)

/-- The function `reconnect_mqtt` (lines 47-55). -/
def reconnect_mqtt (id : NodeIdentity) (env : Env) : Nat → Cursor → Option (List Event × Cursor)
  | 0, _ => none
  | fuel + 1, cur =>
    let live := env.client_connected cur.probe
    let cur1 := { cur with probe := cur.probe + 1 }
    if live then some ([Event.client_connected true], cur1)
    else
      let ok := env.client_connect cur1.conn
      let cur2 := { cur1 with conn := cur1.conn + 1 }
      let attempt := Event.client_connect id.node_id mqtt_username mqtt_password ok
      let after :=
        if ok then Event.serial_println "Connected to HiveMQ Cloud" else Event.delay 5000
      match reconnect_mqtt id env fuel cur2 with
      | none => none
      | some (evs, cur3) => some (Event.client_connected false :: attempt :: after :: evs, cur3)

/-- The function `setup` (lines 57-78).  The status `AllocateTensors()` returns is
discarded by the sketch. -/
def setup (env : Env) (fuel : Nat) (cur : Cursor) : Option (List Event × Cursor) :=
  match setup_wifi env fuel cur with
  | none => none
  | some (evs, cur1) =>
    some (Event.serial_begin 115200 :: Event.rgb_begin :: evs ++
      [Event.set_insecure,
       Event.set_server mqtt_server mqtt_port,
       Event.get_model,
       Event.add_fully_connected,
       Event.add_relu,
       Event.add_logistic,
       Event.new_interpreter kTensorArenaSize,
       Event.allocate_tensors env.allocate_ok,
       Event.bind_input,
       Event.bind_output], cur1)

/-- The `if (prediction > 0.5)` of `loop` (lines 103-111): the colour written
to pixel 0 and the text formatted into `msg`. -/
def loop_branch (id : NodeIdentity) (gas flame temp humidity : Int) (prediction : CFloat) :
    Event × String :=
  if prediction.gt 0.5 then
    (Event.set_pixel_color 0 255 0 0,
     sprintf "%s|%s|%s|Anomaly detected! Gas:%d Flame:%d Temp:%d Hum:%d"
       [Arg.str id.node_id, Arg.str id.floor_id, Arg.str id.zone_id,
        Arg.int gas, Arg.int flame, Arg.int temp, Arg.int humidity])
  else
    (Event.set_pixel_color 0 0 255 0,
     sprintf "%s|%s|%s|Normal Gas:%d Flame:%d Temp:%d Hum:%d"
       [Arg.str id.node_id, Arg.str id.floor_id, Arg.str id.zone_id,
        Arg.int gas, Arg.int flame, Arg.int temp, Arg.int humidity])

/-- The calls of one tick after the connection check (lines 84-115), for a
tick whose behaviour is defined; `loop_checked` says when it is. -/
def loop_body (id : NodeIdentity) (env : Env) (cur : Cursor) : List Event :=
  let gas := random env 0 100 cur.rand
  let flame := random env 0 2 (cur.rand + 1)
  let temp := random env 20 50 (cur.rand + 2)
  let humidity := random env 40 100 (cur.rand + 3)
  let prediction := env.output cur.inv
  let branch := loop_branch id gas flame temp humidity prediction
  [Event.client_loop,
   Event.random 0 100 gas,
   Event.random 0 2 flame,
   Event.random 20 50 temp,
   Event.random 40 100 humidity,
   Event.input_set 0 gas,
   Event.input_set 1 flame,
   Event.input_set 2 temp,
   Event.input_set 3 humidity,
   Event.invoke,
   Event.output_get prediction,
   branch.1,
   Event.client_publish mqtt_topic branch.2 (env.client_publish cur.pub),
   Event.rgb_show,
   Event.delay 2000]

/-- One tick: `loop` (lines 80-116), its calls being those of a tick whose
behaviour is defined. -/
def loop (id : NodeIdentity) (env : Env) (fuel : Nat) (cur : Cursor) :
    Option (List Event × Cursor) :=
  let live := env.client_connected cur.probe
  let cur1 := { cur with probe := cur.probe + 1 }
  match (if live then some ([], cur1) else reconnect_mqtt id env fuel cur1) with
  | none => none
  | some (evs, cur2) =>
    some (Event.client_connected live :: evs ++ loop_body id env cur2,
      { cur2 with rand := cur2.rand + 4, inv := cur2.inv + 1, pub := cur2.pub + 1 })

/-- The first `n` ticks, one after the other. -/
def ticks (id : NodeIdentity) (env : Env) (fuel : Nat) : Nat → Cursor → Option (List Event × Cursor)
  | 0, cur => some ([], cur)
  | n + 1, cur =>
    match loop id env fuel cur with
    | none => none
    | some (evs, cur1) =>
      match ticks id env fuel n cur1 with
      | none => none
      | some (rest, cur2) => some (evs ++ rest, cur2)

/-- The Arduino entry point runs `setup()` once and then `loop()` again and
again; this is its run up to the end of the `n`-th tick. -/
def run (id : NodeIdentity) (env : Env) (fuel n : Nat) : Option (List Event × Cursor) :=
  match setup env fuel Cursor.start with
  | none => none
  | some (evs, cur) =>
    match ticks id env fuel n cur with
    | none => none
    | some (rest, cur1) => some (evs ++ rest, cur1)


/-! ## Where the behaviour of a tick is defined

`loop_body` lists the calls of a tick whose behaviour the C language defines.
Two statements of `loop` leave that ground: the writes through `input`
(line 93 on) when `AllocateTensors()` failed in `setup`, and the `sprintf` into
`char msg[150]` (lines 105 and 109) when the text and its NUL do not fit.
`loop_checked` follows the tick up to the first of them. -/

/-- The statement at which a tick leaves defined behaviour. -/
inductive Fault where
  /-- Line 93: a write through `input`, taken from an interpreter whose tensor
  allocation failed. -/
  | tensor_write
  /-- Line 105 or 109: `sprintf` writes past the end of `msg`. -/
  | msg_overflow

/-- How the calls of a tick, or of a run, end: the code returns, or it reaches
a statement whose behaviour is undefined, after the calls `evs`. -/
inductive Outcome where
  | returned (evs : List Event) (cur : Cursor)
  | undefined (evs : List Event) (fault : Fault)

/-- The write of a formatted text into `char msg[150]` (line 102): the text is
stored when it fits together with its final NUL; otherwise `sprintf` writes
past the buffer and no message is defined. -/
def msg_store (text : String) : Option String :=
  if text.utf8ByteSize + 1 ≤ msg_size then some text else none

/-- The message a tick builds in `msg` (lines 102-111). -/
def loop_msg (id : NodeIdentity) (gas flame temp humidity : Int) (prediction : CFloat) :
    Option String :=
  msg_store (loop_branch id gas flame temp humidity prediction).2

/-- The connection check of a tick (lines 81-83). -/
def connection_check (id : NodeIdentity) (env : Env) (fuel : Nat) (cur : Cursor) :
    Option (List Event × Cursor) :=
  let live := env.client_connected cur.probe
  let cur1 := { cur with probe := cur.probe + 1 }
  match (if live then some ([], cur1) else reconnect_mqtt id env fuel cur1) with
  | none => none
  | some (evs, cur2) => some (Event.client_connected live :: evs, cur2)

/-- The session maintenance call and the sensor reads of a tick (lines 84-90). -/
def loop_sampling (env : Env) (cur : Cursor) : List Event :=
  [Event.client_loop,
   Event.random 0 100 (random env 0 100 cur.rand),
   Event.random 0 2 (random env 0 2 (cur.rand + 1)),
   Event.random 20 50 (random env 20 50 (cur.rand + 2)),
   Event.random 40 100 (random env 40 100 (cur.rand + 3))]

/-- The inference of a tick and the colour it sets (lines 93-104 or 108). -/
def loop_inference (id : NodeIdentity) (env : Env) (cur : Cursor) : List Event :=
  [Event.input_set 0 (random env 0 100 cur.rand),
   Event.input_set 1 (random env 0 2 (cur.rand + 1)),
   Event.input_set 2 (random env 20 50 (cur.rand + 2)),
   Event.input_set 3 (random env 40 100 (cur.rand + 3)),
   Event.invoke,
   Event.output_get (env.output cur.inv),
   (loop_branch id (random env 0 100 cur.rand) (random env 0 2 (cur.rand + 1))
     (random env 20 50 (cur.rand + 2)) (random env 40 100 (cur.rand + 3))
     (env.output cur.inv)).1]

/-- The publish of the message `msg` and the end of a tick (lines 113-115). -/
def loop_report (env : Env) (cur : Cursor) (msg : String) : List Event :=
  [Event.client_publish mqtt_topic msg (env.client_publish cur.pub),
   Event.rgb_show,
   Event.delay 2000]

/-- One tick, followed as far as its behaviour is defined: after the
connection check, the session maintenance and the sensor reads, the writes to
the input tensor are defined only if the tensor allocation of `setup`
succeeded, and the message is defined only if it fits `msg`. -/
def loop_checked (id : NodeIdentity) (env : Env) (fuel : Nat) (cur : Cursor) : Option Outcome :=
  match connection_check id env fuel cur with
  | none => none
  | some (evs, cur2) =>
    if env.allocate_ok then
      match loop_msg id (random env 0 100 cur2.rand) (random env 0 2 (cur2.rand + 1))
          (random env 20 50 (cur2.rand + 2)) (random env 40 100 (cur2.rand + 3))
          (env.output cur2.inv) with
      | none =>
        some (Outcome.undefined (evs ++ (loop_sampling env cur2 ++ loop_inference id env cur2))
          Fault.msg_overflow)
      | some msg =>
        some (Outcome.returned
          (evs ++ (loop_sampling env cur2 ++ (loop_inference id env cur2 ++
            loop_report env cur2 msg)))
          { cur2 with rand := cur2.rand + 4, inv := cur2.inv + 1, pub := cur2.pub + 1 })
    else
      some (Outcome.undefined (evs ++ loop_sampling env cur2) Fault.tensor_write)

/-- The first `n` ticks, followed as far as their behaviour is defined. -/
def ticks_checked (id : NodeIdentity) (env : Env) (fuel : Nat) : Nat → Cursor → Option Outcome
  | 0, cur => some (Outcome.returned [] cur)
  | n + 1, cur =>
    match loop_checked id env fuel cur with
    | none => none
    | some (Outcome.undefined evs fault) => some (Outcome.undefined evs fault)
    | some (Outcome.returned evs cur1) =>
      match ticks_checked id env fuel n cur1 with
      | none => none
      | some (Outcome.undefined rest fault) => some (Outcome.undefined (evs ++ rest) fault)
      | some (Outcome.returned rest cur2) => some (Outcome.returned (evs ++ rest) cur2)

/-- The run of the node up to the end of the `n`-th tick, followed as far as
its behaviour is defined. -/
def run_checked (id : NodeIdentity) (env : Env) (fuel n : Nat) : Option Outcome :=
  match setup env fuel Cursor.start with
  | none => none
  | some (evs, cur) =>
    match ticks_checked id env fuel n cur with
    | none => none
    | some (Outcome.undefined rest fault) => some (Outcome.undefined (evs ++ rest) fault)
    | some (Outcome.returned rest cur1) => some (Outcome.returned (evs ++ rest) cur1)
/-! ## Specification side -/

/-- The classification label of the specification: "Anomaly detected!" when
the score is above 0.5, "Normal" otherwise. -/
def spec_label (score : CFloat) : String :=
  if score.gt 0.5 then "Anomaly detected!" else "Normal"

/-- The message layout of the specification:
`<nodeId>|<floorId>|<zoneId>|<label> Gas:<gas> Flame:<flame> Temp:<temp> Hum:<humidity>`. -/
def spec_message (id : NodeIdentity) (label : String) (gas flame temp humidity : Int) : String :=
  id.node_id ++ "|" ++ id.floor_id ++ "|" ++ id.zone_id ++ "|" ++ label ++
    " Gas:" ++ dec gas ++ " Flame:" ++ dec flame ++ " Temp:" ++ dec temp ++
    " Hum:" ++ dec humidity

/-- The value of a decimal digit character. -/
def digit_value (c : Char) : Nat := c.toNat - 48

/-- Reading a run of decimal digits back as a number. -/
def read_nat (ds : List Char) : Nat :=
  ds.foldl (fun a c => 10 * a + digit_value c) 0

/-- The label as a function of the outcome of the comparison. -/
def label_text (anomaly : Bool) : String :=
  if anomaly then "Anomaly detected!" else "Normal"


/-- The connection states of the specification (section 4.4). -/
inductive ConnectionState where
  | Disconnected
  | NetworkAssociated
  | BrokerConnected
  deriving DecidableEq

/-- The transitions of the specification's connection state machine
(section 4.4), driven by what the sketch observes: the network reporting
associated moves `Disconnected` to `NetworkAssociated`; a successful session
connect, or a liveness probe reporting the session live, gives
`BrokerConnected`; a liveness probe reporting the session lost moves
`BrokerConnected` back to `Disconnected`.  A lost session is detected lazily,
by the next probe: session maintenance, publish and every other call leave the
state as it is. -/
def ConnectionState.observe : ConnectionState → Event → ConnectionState
  | ConnectionState.Disconnected, Event.wifi_status true => ConnectionState.NetworkAssociated
  | _, Event.client_connect _ _ _ true => ConnectionState.BrokerConnected
  | _, Event.client_connected true => ConnectionState.BrokerConnected
  | ConnectionState.BrokerConnected, Event.client_connected false =>
    ConnectionState.Disconnected
  | st, _ => st

/-- The connection state after a sequence of calls, starting from `st`. -/
def state_after (st : ConnectionState) (evs : List Event) : ConnectionState :=
  evs.foldl ConnectionState.observe st

/-- The connection state after the calls of a run from power-up. -/
def connection_state (evs : List Event) : ConnectionState :=
  state_after ConnectionState.Disconnected evs

/-- The successive connection states while the calls `evs` are made, starting
from `st`. -/
def state_path : ConnectionState → List Event → List ConnectionState
  | st, [] => [st]
  | st, e :: es => st :: state_path (st.observe e) es

/-- Every `publish` in `evs` is made in state `BrokerConnected`, when the calls
start in state `st`. -/
def publish_guarded : ConnectionState → List Event → Bool
  | _, [] => true
  | st, Event.client_publish topic text ok :: es =>
    decide (st = ConnectionState.BrokerConnected) &&
      publish_guarded (st.observe (Event.client_publish topic text ok)) es
  | st, e :: es => publish_guarded (st.observe e) es

/-- The calls `reconnect_mqtt` is specified to make when the first `k` connect
attempts fail and the next one succeeds: a probe, a failed attempt and the
5000 ms backoff, `k` times; then a probe, the successful attempt, and the
probe that finds the session live. -/
def expected_reconnect_trace (id : NodeIdentity) : Nat → List Event
  | 0 =>
    [Event.client_connected false,
     Event.client_connect id.node_id mqtt_username mqtt_password true,
     Event.serial_println "Connected to HiveMQ Cloud",
     Event.client_connected true]
  | k + 1 =>
    Event.client_connected false ::
      Event.client_connect id.node_id mqtt_username mqtt_password false ::
      Event.delay 5000 :: expected_reconnect_trace id k

/-- The session maintenance call `client.loop()`. -/
def is_pump : Event → Bool
  | Event.client_loop => true
  | _ => false

/-- A sensor read. -/
def is_sample : Event → Bool
  | Event.random _ _ _ => true
  | _ => false

/-- The interpreter invocation. -/
def is_infer : Event → Bool
  | Event.invoke => true
  | _ => false

/-- The colour of the indicator being set. -/
def is_set_colour : Event → Bool
  | Event.set_pixel_color _ _ _ _ => true
  | _ => false

/-- The colour being shown on the pixel. -/
def is_show : Event → Bool
  | Event.rgb_show => true
  | _ => false

/-- The indicator being driven: its colour set, or shown on the pixel. -/
def is_indicate (e : Event) : Bool :=
  is_set_colour e || is_show e

/-- The publish call. -/
def is_publish : Event → Bool
  | Event.client_publish _ _ _ => true
  | _ => false

/-- A network association step: `WiFi.begin` or a `WiFi.status` poll. -/
def is_wifi_step : Event → Bool
  | Event.wifi_begin _ _ => true
  | Event.wifi_status _ => true
  | _ => false

/-- A broker connect attempt. -/
def is_connect_attempt : Event → Bool
  | Event.client_connect _ _ _ _ => true
  | _ => false

/-- The recorded status of `AllocateTensors`. -/
def is_allocate : Event → Bool
  | Event.allocate_tensors _ => true
  | _ => false

/-- A call `reconnect_mqtt` can make. -/
def is_reconnect_step : Event → Bool
  | Event.client_connected _ => true
  | Event.client_connect _ _ _ _ => true
  | Event.serial_println _ => true
  | Event.delay _ => true
  | _ => false

/-- Both kinds of call occur in `evs`, and every call of kind `p` is made
before every call of kind `q`: no `p` call is left from the first `q` call on. -/
def occurs_before (p q : Event → Bool) (evs : List Event) : Bool :=
  evs.any p && evs.any q && (evs.dropWhile (fun e => !(q e))).all (fun e => !(p e))

/-- The reconnection of the specification: among the calls `evs`, made from
state `st`, a network association step is made and the state
`NetworkAssociated` is entered. -/
def spec_reassociates (st : ConnectionState) (evs : List Event) : Bool :=
  evs.any is_wifi_step && (state_path st evs).contains ConnectionState.NetworkAssociated

/-- The order of the specification for one tick: sample, infer, indicate,
publish. -/
def spec_tick_order (evs : List Event) : Bool :=
  occurs_before is_sample is_infer evs && occurs_before is_infer is_indicate evs &&
    occurs_before is_indicate is_publish evs

/-! ## A concrete environment -/

/-- An environment for the examples: the network associates at the second
poll, the first two connect attempts fail and the later ones succeed, the
probe reports the outcome of the last connect attempt, the sensor draws give
the reading 42, 1, 30, 55, the score is 0.8, every publish is refused and the
tensor allocation fails. -/
def env_demo : Env :=
  { wifi_status := fun k => decide (1 ≤ k),
    client_connected := fun k => decide (4 ≤ k),
    client_connect := fun k => decide (2 ≤ k),
    random_raw := fun k => if k % 4 = 0 then 42 else if k % 4 = 1 then 1
      else if k % 4 = 2 then 10 else 15,
    output := fun _ => CFloat.finite 0.8,
    client_publish := fun _ => false,
    allocate_ok := false }

/-- The calls of `setup` in `env_demo`. -/
def demo_setup_trace : List Event :=
  [Event.serial_begin 115200,
   Event.rgb_begin,
   Event.wifi_begin "YOUR_WIFI_SSID" "YOUR_WIFI_PASSWORD",
   Event.wifi_status false,
   Event.delay 500,
   Event.serial_print ".",
   Event.wifi_status true,
   Event.serial_println "WiFi connected",
   Event.set_insecure,
   Event.set_server "bf0c2aed638d4a048ca7768d70b23253.s1.eu.hivemq.cloud" 8883,
   Event.get_model,
   Event.add_fully_connected,
   Event.add_relu,
   Event.add_logistic,
   Event.new_interpreter 8192,
   Event.allocate_tensors false,
   Event.bind_input,
   Event.bind_output]

/-- The connection phase of the first tick in `env_demo`: the check of `loop`,
then `reconnect_mqtt` with two failed attempts and a successful one. -/
def demo_connect_phase : List Event :=
  [Event.client_connected false,
   Event.client_connected false,
   Event.client_connect "Node1A" "Esp32_C6" "Miniproject1" false,
   Event.delay 5000,
   Event.client_connected false,
   Event.client_connect "Node1A" "Esp32_C6" "Miniproject1" false,
   Event.delay 5000,
   Event.client_connected false,
   Event.client_connect "Node1A" "Esp32_C6" "Miniproject1" true,
   Event.serial_println "Connected to HiveMQ Cloud",
   Event.client_connected true]

/-- The calls of the first tick in `env_demo` between the connection phase and
the publish. -/
def demo_before_publish : List Event :=
  [Event.client_loop,
   Event.random 0 100 42,
   Event.random 0 2 1,
   Event.random 20 50 30,
   Event.random 40 100 55,
   Event.input_set 0 42,
   Event.input_set 1 1,
   Event.input_set 2 30,
   Event.input_set 3 55,
   Event.invoke,
   Event.output_get (CFloat.finite 0.8),
   Event.set_pixel_color 0 255 0 0]

/-- The publish of the first tick in `env_demo` and the calls after it. -/
def demo_from_publish : List Event :=
  [Event.client_publish "tinyml/anomaly"
     "Node1A|Floor 1|Zone A|Anomaly detected! Gas:42 Flame:1 Temp:30 Hum:55" false,
   Event.rgb_show,
   Event.delay 2000]

/-- The calls of the first tick in `env_demo`. -/
def demo_tick_trace : List Event :=
  demo_connect_phase ++ (demo_before_publish ++ demo_from_publish)

/-- The call counts when `setup` has returned in `env_demo`. -/
def demo_cursor_setup : Cursor :=
  { wifi := 2, probe := 0, conn := 0, rand := 0, inv := 0, pub := 0 }

/-- The call counts at the end of the first tick in `env_demo`. -/
def demo_cursor_tick : Cursor :=
  { wifi := 2, probe := 5, conn := 3, rand := 4, inv := 1, pub := 1 }

/-- The environment `env_demo` with a tensor allocation that succeeds. -/
def env_loaded : Env :=
  { env_demo with allocate_ok := true }

/-- An identity whose node identifier has 118 characters. -/
def long_identity : NodeIdentity :=
  { node_id := String.mk (List.replicate 118 'N'), floor_id := "Floor 1", zone_id := "Zone A" }

/-- An environment in which every connect attempt succeeds and the probe never
finds the session live. -/
def env_stuck : Env :=
  { env_demo with client_connected := fun _ => false, client_connect := fun _ => true }

/-- An environment in which every connect attempt succeeds and the probe finds
the session live from its third call on. -/
def env_late : Env :=
  { env_demo with client_connected := fun k => decide (2 ≤ k), client_connect := fun _ => true }

/-- The session maintenance call and the sensor reads of the first tick in
`env_demo`. -/
def demo_sampling : List Event :=
  [Event.client_loop,
   Event.random 0 100 42,
   Event.random 0 2 1,
   Event.random 20 50 30,
   Event.random 40 100 55]

/-- The call counts after the connection check of the first tick in
`env_demo`. -/
def demo_cursor_connected : Cursor :=
  { wifi := 2, probe := 5, conn := 3, rand := 0, inv := 0, pub := 0 }
/-! ## Decimal rendering -/

theorem toDigitsCore_acc (fuel : Nat) : ∀ (n : Nat) (acc : List Char),
    Nat.toDigitsCore 10 fuel n acc = Nat.toDigitsCore 10 fuel n [] ++ acc := by
  induction fuel with
  | zero => intro n acc; simp [Nat.toDigitsCore]
  | succ fuel ih =>
    intro n acc
    simp only [Nat.toDigitsCore]
    by_cases h : n / 10 = 0
    · simp [h]
    · simp only [h, if_false]
      rw [ih (n / 10) (Nat.digitChar (n % 10) :: acc), ih (n / 10) [Nat.digitChar (n % 10)]]
      simp

theorem toDigitsCore_fuel (f1 : Nat) : ∀ (f2 n : Nat), n < f1 → n < f2 →
    Nat.toDigitsCore 10 f1 n [] = Nat.toDigitsCore 10 f2 n [] := by
  induction f1 with
  | zero => intro f2 n h; omega
  | succ f1 ih =>
    intro f2 n h1 h2
    cases f2 with
    | zero => omega
    | succ f2 =>
      simp only [Nat.toDigitsCore]
      by_cases h : n / 10 = 0
      · simp [h]
      · simp only [h, if_false]
        rw [toDigitsCore_acc f1, toDigitsCore_acc f2]
        have hlt : n / 10 < n := Nat.div_lt_self (by omega) (by omega)
        rw [ih f2 (n / 10) (by omega) (by omega)]

theorem toDigits_small (n : Nat) (h : n < 10) : Nat.toDigits 10 n = [Nat.digitChar n] := by
  have h0 : n / 10 = 0 := Nat.div_eq_of_lt h
  simp [Nat.toDigits, Nat.toDigitsCore, h0, Nat.mod_eq_of_lt h]

theorem toDigits_large (n : Nat) (h : 10 ≤ n) :
    Nat.toDigits 10 n = Nat.toDigits 10 (n / 10) ++ [Nat.digitChar (n % 10)] := by
  have h0 : n / 10 ≠ 0 := by omega
  have hlt : n / 10 < n := Nat.div_lt_self (by omega) (by omega)
  have step : Nat.toDigits 10 n =
      Nat.toDigitsCore 10 n (n / 10) [Nat.digitChar (n % 10)] := by
    simp [Nat.toDigits, Nat.toDigitsCore, h0]
  have unfold_small : Nat.toDigits 10 (n / 10) =
      Nat.toDigitsCore 10 (n / 10 + 1) (n / 10) [] := rfl
  rw [step, unfold_small, toDigitsCore_acc n,
    toDigitsCore_fuel n (n / 10 + 1) (n / 10) hlt (by omega)]

theorem toDigits_char (n : Nat) : ∀ c ∈ Nat.toDigits 10 n, ∃ m, m < 10 ∧ c = Nat.digitChar m := by
  induction n using Nat.strong_induction_on with
  | _ n ih =>
    by_cases h : n < 10
    · intro c hc
      rw [toDigits_small n h] at hc
      exact ⟨n, h, by simpa using hc⟩
    · intro c hc
      rw [toDigits_large n (by omega)] at hc
      rcases List.mem_append.1 hc with hc | hc
      · exact ih (n / 10) (Nat.div_lt_self (by omega) (by omega)) c hc
      · exact ⟨n % 10, Nat.mod_lt _ (by omega), by simpa using hc⟩

theorem digit_value_digitChar : ∀ m, m < 10 → digit_value (Nat.digitChar m) = m := by
  decide

theorem read_nat_snoc (ds : List Char) (c : Char) :
    read_nat (ds ++ [c]) = 10 * read_nat ds + digit_value c := by
  simp [read_nat, List.foldl_append]

theorem read_nat_toDigits (n : Nat) : read_nat (Nat.toDigits 10 n) = n := by
  induction n using Nat.strong_induction_on with
  | _ n ih =>
    by_cases h : n < 10
    · rw [toDigits_small n h]
      simp [read_nat, digit_value_digitChar n h]
    · rw [toDigits_large n (by omega), read_nat_snoc,
        ih (n / 10) (Nat.div_lt_self (by omega) (by omega)),
        digit_value_digitChar _ (Nat.mod_lt _ (by omega))]
      omega

theorem toDigits_injective (a b : Nat) (h : Nat.toDigits 10 a = Nat.toDigits 10 b) : a = b := by
  rw [← read_nat_toDigits a, ← read_nat_toDigits b, h]

theorem dec_data_neg (i : Int) (h : i < 0) :
    (dec i).data = '-' :: Nat.toDigits 10 i.natAbs := by
  simp [dec, h, String.data_append, Nat.repr, List.asString]

theorem dec_data_nonneg (i : Int) (h : 0 ≤ i) : (dec i).data = Nat.toDigits 10 i.toNat := by
  have h1 : ¬ i < 0 := by omega
  simp [dec, h1, Nat.repr, List.asString]

theorem digitChar_ne_space : ∀ m, m < 10 → Nat.digitChar m ≠ ' ' := by decide

theorem digitChar_ne_minus : ∀ m, m < 10 → Nat.digitChar m ≠ '-' := by decide

theorem digitChar_utf8Size : ∀ m, m < 10 → (Nat.digitChar m).utf8Size = 1 := by decide

theorem dec_no_space (i : Int) : ' ' ∉ (dec i).data := by
  intro hmem
  by_cases h : i < 0
  · rw [dec_data_neg i h] at hmem
    rcases List.mem_cons.1 hmem with hc | hc
    · exact absurd hc (by decide)
    · obtain ⟨m, hm, hc⟩ := toDigits_char _ _ hc
      exact digitChar_ne_space m hm hc.symm
  · rw [dec_data_nonneg i (by omega)] at hmem
    obtain ⟨m, hm, hc⟩ := toDigits_char _ _ hmem
    exact digitChar_ne_space m hm hc.symm

theorem toDigits_head_ne_minus (n : Nat) (rest : List Char) :
    Nat.toDigits 10 n ≠ '-' :: rest := by
  intro h
  have hmem : '-' ∈ Nat.toDigits 10 n := by rw [h]; exact List.mem_cons_self _ _
  obtain ⟨m, hm, hc⟩ := toDigits_char _ _ hmem
  exact digitChar_ne_minus m hm hc.symm

theorem dec_injective (i j : Int) (h : dec i = dec j) : i = j := by
  have hd : (dec i).data = (dec j).data := by rw [h]
  by_cases hi : i < 0 <;> by_cases hj : j < 0
  · rw [dec_data_neg i hi, dec_data_neg j hj] at hd
    have := toDigits_injective _ _ (List.cons.inj hd).2
    omega
  · rw [dec_data_neg i hi, dec_data_nonneg j (by omega)] at hd
    exact absurd hd.symm (toDigits_head_ne_minus _ _)
  · rw [dec_data_nonneg i (by omega), dec_data_neg j hj] at hd
    exact absurd hd (toDigits_head_ne_minus _ _)
  · rw [dec_data_nonneg i (by omega), dec_data_nonneg j (by omega)] at hd
    have := toDigits_injective _ _ hd
    omega

/-- Two texts that agree and are each cut at their first space have the same
part before it and the same part after it. -/
theorem split_at_space : ∀ (a b r s : List Char), ' ' ∉ a → ' ' ∉ b →
    a ++ ' ' :: r = b ++ ' ' :: s → a = b ∧ r = s := by
  intro a
  induction a with
  | nil =>
    intro b r s _ hb h
    cases b with
    | nil => exact ⟨rfl, by simpa using h⟩
    | cons y b =>
      have hy : ' ' = y := by simpa using (List.cons.inj h).1
      exact absurd (hy ▸ List.mem_cons_self _ _) hb
  | cons x a ih =>
    intro b r s ha hb h
    cases b with
    | nil =>
      have hx : x = ' ' := by simpa using (List.cons.inj h).1
      exact absurd (hx ▸ List.mem_cons_self _ _) ha
    | cons y b =>
      have hxy := List.cons.inj h
      have ha1 : ' ' ∉ a := fun hm => ha (List.mem_cons_of_mem _ hm)
      have hb1 : ' ' ∉ b := fun hm => hb (List.mem_cons_of_mem _ hm)
      obtain ⟨hab, hrs⟩ := ih b r s ha1 hb1 hxy.2
      exact ⟨by rw [hxy.1, hab], hrs⟩

/-- The characters of the specified message, grouped as identity part, label,
and the four readings with their tags. -/
theorem spec_message_data (id : NodeIdentity) (label : String) (gas flame temp humidity : Int) :
    (spec_message id label gas flame temp humidity).data =
      (id.node_id.data ++ '|' :: (id.floor_id.data ++ '|' :: (id.zone_id.data ++ ['|']))) ++
      (label.data ++ (" Gas:".data ++ ((dec gas).data ++ ' ' :: ("Flame:".data ++
        ((dec flame).data ++ ' ' :: ("Temp:".data ++
          ((dec temp).data ++ ' ' :: ("Hum:".data ++ (dec humidity).data)))))))) := by
  simp [spec_message, String.data_append]

/-- The sketch formats the specified message, with the specified label. -/
theorem loop_branch_msg (id : NodeIdentity) (gas flame temp humidity : Int) (prediction : CFloat) :
    (loop_branch id gas flame temp humidity prediction).2 =
      spec_message id (spec_label prediction) gas flame temp humidity := by
  unfold loop_branch spec_label
  by_cases h : prediction.gt 0.5 = true
  · simp only [h, if_true]
    apply String.ext
    simp [sprintf, vformat, spec_message, String.data_append]
  · simp only [h, if_false]
    apply String.ext
    simp [sprintf, vformat, spec_message, String.data_append]

theorem spec_label_eq (p : CFloat) : spec_label p = label_text (p.gt 0.5) := rfl

theorem dec_data_injective (i j : Int) (h : (dec i).data = (dec j).data) : i = j :=
  dec_injective i j (String.ext h)

/-- The four readings can be read back from the part of the message that
follows " Gas:". -/
theorem readings_injective (g1 f1 t1 h1 g2 f2 t2 h2 : Int)
    (h : (dec g1).data ++ ' ' :: ("Flame:".data ++ ((dec f1).data ++ ' ' :: ("Temp:".data ++
            ((dec t1).data ++ ' ' :: ("Hum:".data ++ (dec h1).data))))) =
         (dec g2).data ++ ' ' :: ("Flame:".data ++ ((dec f2).data ++ ' ' :: ("Temp:".data ++
            ((dec t2).data ++ ' ' :: ("Hum:".data ++ (dec h2).data)))))) :
    g1 = g2 ∧ f1 = f2 ∧ t1 = t2 ∧ h1 = h2 := by
  obtain ⟨hg, r1⟩ := split_at_space _ _ _ _ (dec_no_space g1) (dec_no_space g2) h
  have r1b : (dec f1).data ++ ' ' :: ("Temp:".data ++
      ((dec t1).data ++ ' ' :: ("Hum:".data ++ (dec h1).data))) =
      (dec f2).data ++ ' ' :: ("Temp:".data ++
      ((dec t2).data ++ ' ' :: ("Hum:".data ++ (dec h2).data))) :=
    List.append_cancel_left r1
  obtain ⟨hf, r2⟩ := split_at_space _ _ _ _ (dec_no_space f1) (dec_no_space f2) r1b
  have r2b : (dec t1).data ++ ' ' :: ("Hum:".data ++ (dec h1).data) =
      (dec t2).data ++ ' ' :: ("Hum:".data ++ (dec h2).data) :=
    List.append_cancel_left r2
  obtain ⟨ht, r3⟩ := split_at_space _ _ _ _ (dec_no_space t1) (dec_no_space t2) r2b
  have r3b : (dec h1).data = (dec h2).data := List.append_cancel_left r3
  exact ⟨dec_data_injective _ _ hg, dec_data_injective _ _ hf, dec_data_injective _ _ ht,
    dec_data_injective _ _ r3b⟩

/-- For a fixed identity, the label and the four readings can be read back
from the message. -/
theorem spec_message_injective (id : NodeIdentity) (a b : Bool)
    (g1 f1 t1 h1 g2 f2 t2 h2 : Int)
    (h : spec_message id (label_text a) g1 f1 t1 h1 =
         spec_message id (label_text b) g2 f2 t2 h2) :
    a = b ∧ g1 = g2 ∧ f1 = f2 ∧ t1 = t2 ∧ h1 = h2 := by
  have hd := congrArg String.data h
  rw [spec_message_data, spec_message_data] at hd
  have hd1 := List.append_cancel_left hd
  cases a <;> cases b
  · exact ⟨rfl, readings_injective _ _ _ _ _ _ _ _
      (List.append_cancel_left (List.append_cancel_left hd1))⟩
  · exact absurd hd1 (by simp [label_text])
  · exact absurd hd1 (by simp [label_text])
  · exact ⟨rfl, readings_injective _ _ _ _ _ _ _ _
      (List.append_cancel_left (List.append_cancel_left hd1))⟩


/-! ## Length of the message -/

theorem utf8Len_eq_length : ∀ (l : List Char), (∀ c ∈ l, c.utf8Size = 1) →
    String.utf8Len l = l.length := by
  intro l
  induction l with
  | nil => intro _; rfl
  | cons c cs ih =>
    intro h
    have hc : c.utf8Size = 1 := h c (List.mem_cons_self _ _)
    have hcs : String.utf8Len cs = cs.length := ih (fun d hd => h d (List.mem_cons_of_mem _ hd))
    rw [String.utf8Len_cons, hc, hcs, List.length_cons]

theorem toDigits_utf8Size (n : Nat) : ∀ c ∈ Nat.toDigits 10 n, c.utf8Size = 1 := by
  intro c hc
  obtain ⟨m, hm, rfl⟩ := toDigits_char n c hc
  exact digitChar_utf8Size m hm

/-- The text of `%d` is made of one-byte characters. -/
theorem dec_utf8Len (i : Int) : String.utf8Len (dec i).data = (dec i).length := by
  show String.utf8Len (dec i).data = (dec i).data.length
  apply utf8Len_eq_length
  intro c hc
  by_cases h : i < 0
  · rw [dec_data_neg i h] at hc
    rcases List.mem_cons.1 hc with hc | hc
    · rw [hc]; decide
    · exact toDigits_utf8Size _ c hc
  · rw [dec_data_nonneg i (by omega)] at hc
    exact toDigits_utf8Size _ c hc

/-- A reading between 0 and 999 prints as at most three characters. -/
theorem dec_length_le_three (i : Int) (h0 : 0 ≤ i) (h1 : i < 1000) : (dec i).length ≤ 3 := by
  have hneg : ¬ i < 0 := by omega
  have hrepr : dec i = Nat.repr i.toNat := by simp [dec, hneg]
  rw [hrepr]
  exact Nat.repr_length i.toNat 3 (by decide) (by omega)

/-- A reading between 0 and 99 prints as at most two characters. -/
theorem dec_length_le_two (i : Int) (h0 : 0 ≤ i) (h1 : i < 100) : (dec i).length ≤ 2 := by
  have hneg : ¬ i < 0 := by omega
  have hrepr : dec i = Nat.repr i.toNat := by simp [dec, hneg]
  rw [hrepr]
  exact Nat.repr_length i.toNat 2 (by decide) (by omega)

/-- A reading between 0 and 9 prints as one character. -/
theorem dec_length_le_one (i : Int) (h0 : 0 ≤ i) (h1 : i < 10) : (dec i).length ≤ 1 := by
  have hneg : ¬ i < 0 := by omega
  have hrepr : dec i = Nat.repr i.toNat := by simp [dec, hneg]
  rw [hrepr]
  exact Nat.repr_length i.toNat 1 (by decide) (by omega)

theorem label_text_length (a : Bool) : (label_text a).length ≤ 17 := by
  cases a <;> decide

theorem label_text_utf8Len (a : Bool) :
    String.utf8Len (label_text a).data = (label_text a).length := by
  cases a <;> decide

/-- Number of characters of the message for the configured identity. -/
theorem configured_message_length (a : Bool) (gas flame temp humidity : Int) :
    (spec_message configured (label_text a) gas flame temp humidity).length =
      45 + (label_text a).length + (dec gas).length + (dec flame).length +
        (dec temp).length + (dec humidity).length := by
  simp only [spec_message, String.length_append]
  have e1 : configured.node_id.length = 6 := by decide
  have e2 : configured.floor_id.length = 7 := by decide
  have e3 : configured.zone_id.length = 6 := by decide
  have e4 : "|".length = 1 := by decide
  have e5 : " Gas:".length = 5 := by decide
  have e6 : " Flame:".length = 7 := by decide
  have e7 : " Temp:".length = 6 := by decide
  have e8 : " Hum:".length = 5 := by decide
  rw [e1, e2, e3, e4, e5, e6, e7, e8]
  omega

/-- Number of bytes of the message for the configured identity: every
character takes one byte. -/
theorem configured_message_bytes (a : Bool) (gas flame temp humidity : Int) :
    (spec_message configured (label_text a) gas flame temp humidity).utf8ByteSize =
      (spec_message configured (label_text a) gas flame temp humidity).length := by
  rw [configured_message_length]
  show String.utf8Len (spec_message configured (label_text a) gas flame temp humidity).data = _
  rw [spec_message_data]
  simp only [String.utf8Len_append, String.utf8Len_cons, dec_utf8Len, label_text_utf8Len]
  have e1 : String.utf8Len configured.node_id.data = 6 := by decide
  have e2 : String.utf8Len configured.floor_id.data = 7 := by decide
  have e3 : String.utf8Len configured.zone_id.data = 6 := by decide
  have e0 : String.utf8Len [] = 0 := rfl
  have c1 : Char.utf8Size '|' = 1 := by decide
  have c2 : Char.utf8Size ' ' = 1 := by decide
  have c3 : Char.utf8Size ':' = 1 := by decide
  have c4 : Char.utf8Size 's' = 1 := by decide
  have c5 : Char.utf8Size 'a' = 1 := by decide
  have c6 : Char.utf8Size 'G' = 1 := by decide
  have c7 : Char.utf8Size 'e' = 1 := by decide
  have c8 : Char.utf8Size 'm' = 1 := by decide
  have c9 : Char.utf8Size 'l' = 1 := by decide
  have c10 : Char.utf8Size 'F' = 1 := by decide
  have c11 : Char.utf8Size 'p' = 1 := by decide
  have c12 : Char.utf8Size 'T' = 1 := by decide
  have c13 : Char.utf8Size 'u' = 1 := by decide
  have c14 : Char.utf8Size 'H' = 1 := by decide
  rw [e1, e2, e3]
  simp only [e0, c1, c2, c3, c4, c5, c6, c7, c8, c9, c10, c11, c12, c13, c14]
  omega

theorem random_range (env : Env) (lo hi : Int) (k : Nat) (h : lo < hi) :
    lo ≤ random env lo hi k ∧ random env lo hi k < hi := by
  have hnot : ¬ lo ≥ hi := by omega
  have hpos : 0 < (hi - lo).toNat := by omega
  have hmod := Nat.mod_lt (env.random_raw k) hpos
  simp only [random, hnot, if_false, Int.ofNat_eq_coe]
  omega

/-! ## The label -/

theorem gt_finite (q c : ℚ) : (CFloat.finite q).gt c = true ↔ q > c := by
  simp [CFloat.gt]

theorem spec_label_anomaly (p : CFloat) (h : p.gt 0.5 = true) :
    spec_label p = "Anomaly detected!" := by
  simp [spec_label, h]

/-- The message carries the anomaly label exactly when the comparison holds,
and the normal label exactly when it does not. -/
theorem loop_branch_label (id : NodeIdentity) (gas flame temp humidity : Int) (p : CFloat) :
    ((loop_branch id gas flame temp humidity p).2 =
        spec_message id "Anomaly detected!" gas flame temp humidity ↔ p.gt 0.5 = true) ∧
    ((loop_branch id gas flame temp humidity p).2 =
        spec_message id "Normal" gas flame temp humidity ↔ p.gt 0.5 = false) := by
  rw [loop_branch_msg, spec_label_eq]
  constructor
  · constructor
    · intro h
      exact (spec_message_injective id (p.gt 0.5) true _ _ _ _ _ _ _ _ h).1
    · intro h
      rw [h]; rfl
  · constructor
    · intro h
      exact (spec_message_injective id (p.gt 0.5) false _ _ _ _ _ _ _ _ h).1
    · intro h
      rw [h]; rfl

/-! ## The connection loops -/

theorem reconnect_mqtt_live (id : NodeIdentity) (env : Env) (fuel : Nat) (cur : Cursor)
    (h : env.client_connected cur.probe = true) :
    reconnect_mqtt id env (fuel + 1) cur =
      some ([Event.client_connected true], { cur with probe := cur.probe + 1 }) := by
  simp [reconnect_mqtt, h]

theorem reconnect_mqtt_lost (id : NodeIdentity) (env : Env) (fuel : Nat) (cur : Cursor)
    (h : env.client_connected cur.probe = false) :
    reconnect_mqtt id env (fuel + 1) cur =
      match reconnect_mqtt id env fuel
          { cur with probe := cur.probe + 1, conn := cur.conn + 1 } with
      | none => none
      | some (evs, cur3) =>
        some (Event.client_connected false ::
          Event.client_connect id.node_id mqtt_username mqtt_password
            (env.client_connect cur.conn) ::
          (if env.client_connect cur.conn then Event.serial_println "Connected to HiveMQ Cloud"
            else Event.delay 5000) :: evs, cur3) := by
  simp [reconnect_mqtt, h]

/-- Whatever the broker does, a `reconnect_mqtt` that returns has made only
probes, connect attempts, the log line and backoff delays, and its last call
is a probe that found the session live. -/
theorem reconnect_mqtt_steps (id : NodeIdentity) (env : Env) (fuel : Nat) :
    ∀ (cur : Cursor) (evs : List Event) (cur1 : Cursor),
      reconnect_mqtt id env fuel cur = some (evs, cur1) →
      evs.all is_reconnect_step = true ∧ ∃ init, evs = init ++ [Event.client_connected true] := by
  induction fuel with
  | zero => intro cur evs cur1 h; simp [reconnect_mqtt] at h
  | succ fuel ih =>
    intro cur evs cur1 h
    by_cases hp : env.client_connected cur.probe = true
    · rw [reconnect_mqtt_live id env fuel cur hp] at h
      obtain ⟨rfl, -⟩ := Prod.mk.inj (Option.some.inj h)
      exact ⟨by simp [is_reconnect_step], [], rfl⟩
    · have hp1 : env.client_connected cur.probe = false := by simpa using hp
      rw [reconnect_mqtt_lost id env fuel cur hp1] at h
      cases hr : reconnect_mqtt id env fuel
          { cur with probe := cur.probe + 1, conn := cur.conn + 1 } with
      | none => rw [hr] at h; simp at h
      | some r =>
        obtain ⟨evs2, cur3⟩ := r
        rw [hr] at h
        obtain ⟨rfl, -⟩ := Prod.mk.inj (Option.some.inj h)
        obtain ⟨hall, init, hinit⟩ := ih _ evs2 cur3 hr
        refine ⟨?_, _ :: _ :: _ :: init, by rw [hinit]; rfl⟩
        cases hc : env.client_connect cur.conn <;>
          simp [is_reconnect_step, hall]

/-- A `reconnect_mqtt` that finds the session live after `k` more probes
returns when given more than `k` units of fuel. -/
theorem reconnect_mqtt_returns (id : NodeIdentity) (env : Env) (k : Nat) :
    ∀ (cur : Cursor) (fuel : Nat), env.client_connected (cur.probe + k) = true → k < fuel →
      ∃ r, reconnect_mqtt id env fuel cur = some r := by
  induction k with
  | zero =>
    intro cur fuel h hf
    obtain ⟨f, rfl⟩ : ∃ f, fuel = f + 1 := ⟨fuel - 1, by omega⟩
    exact ⟨_, reconnect_mqtt_live id env f cur (by simpa using h)⟩
  | succ k ih =>
    intro cur fuel h hf
    obtain ⟨f, rfl⟩ : ∃ f, fuel = f + 1 := ⟨fuel - 1, by omega⟩
    by_cases hp : env.client_connected cur.probe = true
    · exact ⟨_, reconnect_mqtt_live id env f cur hp⟩
    · have hp1 : env.client_connected cur.probe = false := by simpa using hp
      obtain ⟨r, hr⟩ := ih { cur with probe := cur.probe + 1, conn := cur.conn + 1 } f
        (by simpa [Nat.add_assoc, Nat.add_comm 1 k] using h) (by omega)
      rw [reconnect_mqtt_lost id env f cur hp1, hr]
      exact ⟨_, rfl⟩

/-- The run of `reconnect_mqtt` when the probe reports the outcome of the last
connect attempt and the first success is the attempt number `k`. -/
theorem reconnect_mqtt_first_success (id : NodeIdentity) (env : Env) (k : Nat) :
    ∀ (cur : Cursor), env.client_connected cur.probe = false →
      (∀ j, j ≤ k → env.client_connected (cur.probe + j + 1) = env.client_connect (cur.conn + j)) →
      env.client_connect (cur.conn + k) = true →
      (∀ j, j < k → env.client_connect (cur.conn + j) = false) →
      ∀ fuel, k + 2 ≤ fuel →
        reconnect_mqtt id env fuel cur =
          some (expected_reconnect_trace id k,
            { cur with probe := cur.probe + k + 2, conn := cur.conn + k + 1 }) := by
  induction k with
  | zero =>
    intro cur hentry hprobe hk _ fuel hf
    obtain ⟨f, rfl⟩ : ∃ f, fuel = f + 2 := ⟨fuel - 2, by omega⟩
    have hc : env.client_connect cur.conn = true := by simpa using hk
    have hp1 : env.client_connected (cur.probe + 1) = true := by
      have := hprobe 0 (Nat.le_refl 0)
      simpa [hc] using this
    rw [reconnect_mqtt_lost id env (f + 1) cur hentry,
      reconnect_mqtt_live id env f _ (by simpa using hp1)]
    simp [expected_reconnect_trace, hc]
  | succ k ih =>
    intro cur hentry hprobe hk hfirst fuel hf
    obtain ⟨f, rfl⟩ : ∃ f, fuel = f + 1 := ⟨fuel - 1, by omega⟩
    have hc : env.client_connect cur.conn = false := by
      simpa using hfirst 0 (Nat.succ_pos k)
    have hp1 : env.client_connected (cur.probe + 1) = false := by
      have := hprobe 0 (Nat.zero_le _)
      simpa [hc] using this
    have hrec := ih { cur with probe := cur.probe + 1, conn := cur.conn + 1 } hp1
      (fun j hj => by
        have := hprobe (j + 1) (by omega)
        simpa [Nat.add_assoc, Nat.add_comm 1 j] using this)
      (by simpa [Nat.add_assoc, Nat.add_comm 1 k] using hk)
      (fun j hj => by
        have := hfirst (j + 1) (by omega)
        simpa [Nat.add_assoc, Nat.add_comm 1 j] using this)
      f (by omega)
    rw [reconnect_mqtt_lost id env f cur hentry, hrec]
    simp [expected_reconnect_trace, hc, Nat.add_assoc, Nat.add_comm 1 k, Nat.add_comm 1 (k + 1)]

/-- The loop of `setup_wifi` returns when the network reports associated at
one of the polls the fuel allows. -/
theorem wifi_wait_returns (env : Env) (k : Nat) :
    ∀ (cur : Cursor) (fuel : Nat), env.wifi_status (cur.wifi + k) = true → k < fuel →
      (wifi_wait env fuel cur).isSome = true := by
  induction k with
  | zero =>
    intro cur fuel h hf
    obtain ⟨f, rfl⟩ : ∃ f, fuel = f + 1 := ⟨fuel - 1, by omega⟩
    have h0 : env.wifi_status cur.wifi = true := by simpa using h
    simp [wifi_wait, h0]
  | succ k ih =>
    intro cur fuel h hf
    obtain ⟨f, rfl⟩ : ∃ f, fuel = f + 1 := ⟨fuel - 1, by omega⟩
    by_cases hs : env.wifi_status cur.wifi = true
    · simp [wifi_wait, hs]
    · have hs1 : env.wifi_status cur.wifi = false := by simpa using hs
      have hr := ih { cur with wifi := cur.wifi + 1 } f
        (by simpa [Nat.add_assoc, Nat.add_comm 1 k] using h) (by omega)
      obtain ⟨r, hr1⟩ := Option.isSome_iff_exists.1 hr
      simp [wifi_wait, hs1, hr1]

theorem setup_returns (env : Env) (k : Nat) (cur : Cursor) (fuel : Nat)
    (h : env.wifi_status (cur.wifi + k) = true) (hf : k < fuel) :
    ∃ r, setup env fuel cur = some r := by
  obtain ⟨r, hr⟩ := Option.isSome_iff_exists.1 (wifi_wait_returns env k cur fuel h hf)
  simp only [setup, setup_wifi, hr]
  exact ⟨_, rfl⟩

/-! ## One tick -/

/-- The colour call of a tick sets pixel 0. -/
theorem loop_branch_colour (id : NodeIdentity) (gas flame temp humidity : Int) (p : CFloat) :
    ∃ r g b, (loop_branch id gas flame temp humidity p).1 = Event.set_pixel_color 0 r g b := by
  unfold loop_branch
  split
  · exact ⟨255, 0, 0, rfl⟩
  · exact ⟨0, 255, 0, rfl⟩

/-- The calls of a tick after the connection check, written out. -/
theorem loop_body_shape (id : NodeIdentity) (env : Env) (cur : Cursor) :
    ∃ (gas flame temp humidity : Int) (score : CFloat) (r g b : Nat) (text : String) (ok : Bool),
      loop_body id env cur =
        [Event.client_loop,
         Event.random 0 100 gas,
         Event.random 0 2 flame,
         Event.random 20 50 temp,
         Event.random 40 100 humidity,
         Event.input_set 0 gas,
         Event.input_set 1 flame,
         Event.input_set 2 temp,
         Event.input_set 3 humidity,
         Event.invoke,
         Event.output_get score,
         Event.set_pixel_color 0 r g b,
         Event.client_publish mqtt_topic text ok,
         Event.rgb_show,
         Event.delay 2000] := by
  obtain ⟨r, g, b, hc⟩ := loop_branch_colour id (random env 0 100 cur.rand)
    (random env 0 2 (cur.rand + 1)) (random env 20 50 (cur.rand + 2))
    (random env 40 100 (cur.rand + 3)) (env.output cur.inv)
  refine ⟨random env 0 100 cur.rand, random env 0 2 (cur.rand + 1),
    random env 20 50 (cur.rand + 2), random env 40 100 (cur.rand + 3), env.output cur.inv,
    r, g, b, (loop_branch id (random env 0 100 cur.rand) (random env 0 2 (cur.rand + 1))
      (random env 20 50 (cur.rand + 2)) (random env 40 100 (cur.rand + 3))
      (env.output cur.inv)).2, env.client_publish cur.pub, ?_⟩
  simp only [loop_body, hc]

/-- A tick that returns is a connection phase, made of probes, connect
attempts, log lines and backoff delays and ending with a probe that found the
session live, followed by the calls of `loop_body`. -/
theorem loop_shape (id : NodeIdentity) (env : Env) (fuel : Nat) (cur : Cursor)
    (evs : List Event) (cur1 : Cursor) (h : loop id env fuel cur = some (evs, cur1)) :
    ∃ (pre : List Event) (cur2 : Cursor),
      evs = pre ++ loop_body id env cur2 ∧ pre.all is_reconnect_step = true ∧
      ∃ init, pre = init ++ [Event.client_connected true] := by
  unfold loop at h
  by_cases hp : env.client_connected cur.probe = true
  · simp only [hp, if_true] at h
    obtain ⟨rfl, -⟩ := Prod.mk.inj (Option.some.inj h)
    exact ⟨[Event.client_connected true], _, rfl, by simp [is_reconnect_step], [], rfl⟩
  · have hp1 : env.client_connected cur.probe = false := by simpa using hp
    simp only [hp1] at h
    cases hr : reconnect_mqtt id env fuel { cur with probe := cur.probe + 1 } with
    | none => rw [hr] at h; simp at h
    | some r =>
      obtain ⟨evs2, cur3⟩ := r
      rw [hr] at h
      simp only [Bool.false_eq_true, if_false] at h
      obtain ⟨rfl, -⟩ := Prod.mk.inj (Option.some.inj h)
      obtain ⟨hall, init, hinit⟩ := reconnect_mqtt_steps id env fuel _ evs2 cur3 hr
      refine ⟨Event.client_connected false :: evs2, cur3, by simp, ?_,
        Event.client_connected false :: init, by rw [hinit]; rfl⟩
      simp [is_reconnect_step, hall]

/-- A tick returns as soon as it has fuel for the probes that precede the
first one finding the session live. -/
theorem loop_returns (id : NodeIdentity) (env : Env) (cur : Cursor) (k fuel : Nat)
    (h : env.client_connected (cur.probe + k) = true) (hf : k ≤ fuel) :
    ∃ r, loop id env fuel cur = some r := by
  unfold loop
  by_cases hp : env.client_connected cur.probe = true
  · simp only [hp, if_true]
    exact ⟨_, rfl⟩
  · have hp1 : env.client_connected cur.probe = false := by simpa using hp
    have hk : 0 < k := by
      rcases Nat.eq_zero_or_pos k with h0 | h0
      · rw [h0] at h; simp [hp1] at h
      · exact h0
    obtain ⟨r, hr⟩ := reconnect_mqtt_returns id env (k - 1) { cur with probe := cur.probe + 1 }
      fuel (by
        have e : cur.probe + 1 + (k - 1) = cur.probe + k := by omega
        simpa [e] using h) (by omega)
    simp only [hp1, hr]
    exact ⟨_, rfl⟩

/-! ## Calls that the connection phase does not make -/

theorem any_of_reconnect_steps (p : Event → Bool)
    (hp : ∀ e, is_reconnect_step e = true → p e = false) :
    ∀ (pre : List Event), pre.all is_reconnect_step = true → pre.any p = false := by
  intro pre
  induction pre with
  | nil => intro _; rfl
  | cons e es ih =>
    intro h
    simp only [List.all_cons, Bool.and_eq_true] at h
    simp only [List.any_cons, hp e h.1, ih h.2, Bool.or_self]

theorem countP_of_reconnect_steps (p : Event → Bool)
    (hp : ∀ e, is_reconnect_step e = true → p e = false) :
    ∀ (pre : List Event), pre.all is_reconnect_step = true → pre.countP p = 0 := by
  intro pre
  induction pre with
  | nil => intro _; rfl
  | cons e es ih =>
    intro h
    simp only [List.all_cons, Bool.and_eq_true] at h
    rw [List.countP_cons, ih h.2, hp e h.1]
    rfl

theorem dropWhile_of_reconnect_steps (q : Event → Bool)
    (hq : ∀ e, is_reconnect_step e = true → q e = false) :
    ∀ (pre rest : List Event), pre.all is_reconnect_step = true →
      (pre ++ rest).dropWhile (fun e => !(q e)) = rest.dropWhile (fun e => !(q e)) := by
  intro pre
  induction pre with
  | nil => intro rest _; rfl
  | cons e es ih =>
    intro rest h
    simp only [List.all_cons, Bool.and_eq_true] at h
    rw [List.cons_append, List.dropWhile_cons]
    simp only [hq e h.1, Bool.not_false, if_true]
    exact ih rest h.2

/-- The order of two kinds of call in a tick is their order in `loop_body`,
when the connection phase makes neither. -/
theorem occurs_before_of_reconnect_steps (p q : Event → Bool)
    (hp : ∀ e, is_reconnect_step e = true → p e = false)
    (hq : ∀ e, is_reconnect_step e = true → q e = false)
    (pre rest : List Event) (h : pre.all is_reconnect_step = true) :
    occurs_before p q (pre ++ rest) = occurs_before p q rest := by
  unfold occurs_before
  rw [List.any_append, List.any_append, any_of_reconnect_steps p hp pre h,
    any_of_reconnect_steps q hq pre h, dropWhile_of_reconnect_steps q hq pre rest h]
  simp

theorem not_pump_of_reconnect_step : ∀ e, is_reconnect_step e = true → is_pump e = false := by
  intro e; cases e <;> simp [is_reconnect_step, is_pump]

theorem not_sample_of_reconnect_step : ∀ e, is_reconnect_step e = true → is_sample e = false := by
  intro e; cases e <;> simp [is_reconnect_step, is_sample]

theorem not_infer_of_reconnect_step : ∀ e, is_reconnect_step e = true → is_infer e = false := by
  intro e; cases e <;> simp [is_reconnect_step, is_infer]

theorem not_set_colour_of_reconnect_step :
    ∀ e, is_reconnect_step e = true → is_set_colour e = false := by
  intro e; cases e <;> simp [is_reconnect_step, is_set_colour]

theorem not_show_of_reconnect_step : ∀ e, is_reconnect_step e = true → is_show e = false := by
  intro e; cases e <;> simp [is_reconnect_step, is_show]

theorem not_publish_of_reconnect_step :
    ∀ e, is_reconnect_step e = true → is_publish e = false := by
  intro e; cases e <;> simp [is_reconnect_step, is_publish]

theorem not_wifi_of_reconnect_step :
    ∀ e, is_reconnect_step e = true → is_wifi_step e = false := by
  intro e; cases e <;> simp [is_reconnect_step, is_wifi_step]

/-! ## The connection state along a trace -/

theorem state_after_append (st : ConnectionState) (a b : List Event) :
    state_after st (a ++ b) = state_after (state_after st a) b := by
  simp [state_after, List.foldl_append]

theorem state_after_probe_live (st : ConnectionState) (init : List Event) :
    state_after st (init ++ [Event.client_connected true]) =
      ConnectionState.BrokerConnected := by
  rw [state_after_append]
  generalize state_after st init = s
  cases s <;> rfl

/-- The calls of `loop_body` leave the connection state as it is. -/
theorem state_after_loop_body (id : NodeIdentity) (env : Env) (cur : Cursor)
    (st : ConnectionState) : state_after st (loop_body id env cur) = st := by
  obtain ⟨gas, flame, temp, humidity, score, r, g, b, text, ok, hb⟩ := loop_body_shape id env cur
  rw [hb]
  cases st <;> rfl

theorem publish_guarded_cons (st : ConnectionState) (e : Event) (es : List Event) :
    publish_guarded st (e :: es) =
      ((!(is_publish e) || decide (st = ConnectionState.BrokerConnected)) &&
        publish_guarded (st.observe e) es) := by
  cases e <;> simp [publish_guarded, is_publish]

theorem publish_guarded_append : ∀ (a b : List Event) (st : ConnectionState),
    publish_guarded st (a ++ b) =
      (publish_guarded st a && publish_guarded (state_after st a) b) := by
  intro a
  induction a with
  | nil => intro b st; simp [publish_guarded, state_after]
  | cons e es ih =>
    intro b st
    rw [List.cons_append, publish_guarded_cons, publish_guarded_cons, ih b (st.observe e)]
    simp [state_after, Bool.and_assoc]

theorem publish_guarded_of_no_publish : ∀ (evs : List Event) (st : ConnectionState),
    evs.any is_publish = false → publish_guarded st evs = true := by
  intro evs
  induction evs with
  | nil => intro st _; rfl
  | cons e es ih =>
    intro st h
    simp only [List.any_cons, Bool.or_eq_false_iff] at h
    rw [publish_guarded_cons, h.1, ih (st.observe e) h.2]
    rfl

/-- The meaning of `publish_guarded`: the state just before each publish call
is `BrokerConnected`. -/
theorem state_at_publish : ∀ (pre : List Event) (st : ConnectionState) (evs post : List Event)
    (topic text : String) (ok : Bool), publish_guarded st evs = true →
    evs = pre ++ Event.client_publish topic text ok :: post →
    state_after st pre = ConnectionState.BrokerConnected := by
  intro pre
  induction pre with
  | nil =>
    intro st evs post topic text ok hg he
    rw [he, List.nil_append, publish_guarded_cons] at hg
    simp only [Bool.and_eq_true] at hg
    simpa [is_publish, state_after] using hg.1
  | cons e es ih =>
    intro st evs post topic text ok hg he
    rw [he, List.cons_append, publish_guarded_cons] at hg
    simp only [Bool.and_eq_true] at hg
    exact ih (st.observe e) _ post topic text ok hg.2 rfl

theorem publish_guarded_loop_body (id : NodeIdentity) (env : Env) (cur : Cursor) :
    publish_guarded ConnectionState.BrokerConnected (loop_body id env cur) = true := by
  obtain ⟨gas, flame, temp, humidity, score, r, g, b, text, ok, hb⟩ := loop_body_shape id env cur
  rw [hb]
  rfl

/-- In a tick that returns, from any state, every publish is made in state
`BrokerConnected`, and the tick ends in that state. -/
theorem loop_guarded (id : NodeIdentity) (env : Env) (fuel : Nat) (cur : Cursor)
    (evs : List Event) (cur1 : Cursor) (h : loop id env fuel cur = some (evs, cur1))
    (st : ConnectionState) :
    publish_guarded st evs = true ∧ state_after st evs = ConnectionState.BrokerConnected := by
  obtain ⟨pre, cur2, rfl, hall, init, hinit⟩ := loop_shape id env fuel cur evs cur1 h
  have hpre : state_after st pre = ConnectionState.BrokerConnected := by
    rw [hinit]; exact state_after_probe_live st init
  constructor
  · rw [publish_guarded_append, hpre, publish_guarded_loop_body,
      publish_guarded_of_no_publish pre st
        (any_of_reconnect_steps is_publish not_publish_of_reconnect_step pre hall)]
    rfl
  · rw [state_after_append, hpre, state_after_loop_body]

theorem ticks_guarded (id : NodeIdentity) (env : Env) (fuel : Nat) :
    ∀ (n : Nat) (cur : Cursor) (evs : List Event) (cur1 : Cursor) (st : ConnectionState),
      ticks id env fuel n cur = some (evs, cur1) → publish_guarded st evs = true := by
  intro n
  induction n with
  | zero =>
    intro cur evs cur1 st h
    simp only [ticks] at h
    obtain ⟨rfl, -⟩ := Prod.mk.inj (Option.some.inj h)
    rfl
  | succ n ih =>
    intro cur evs cur1 st h
    simp only [ticks] at h
    cases hl : loop id env fuel cur with
    | none => rw [hl] at h; simp at h
    | some r =>
      obtain ⟨evs1, cur2⟩ := r
      simp only [hl] at h
      cases ht : ticks id env fuel n cur2 with
      | none => rw [ht] at h; simp at h
      | some r2 =>
        obtain ⟨rest, cur3⟩ := r2
        simp only [ht] at h
        obtain ⟨rfl, -⟩ := Prod.mk.inj (Option.some.inj h)
        rw [publish_guarded_append, (loop_guarded id env fuel cur evs1 cur2 hl st).1,
          ih cur2 rest cur3 _ ht]
        rfl

theorem wifi_wait_no_publish (env : Env) (fuel : Nat) :
    ∀ (cur : Cursor) (evs : List Event) (cur1 : Cursor),
      wifi_wait env fuel cur = some (evs, cur1) → evs.any is_publish = false := by
  induction fuel with
  | zero => intro cur evs cur1 h; simp [wifi_wait] at h
  | succ fuel ih =>
    intro cur evs cur1 h
    simp only [wifi_wait] at h
    by_cases hs : env.wifi_status cur.wifi = true
    · simp only [hs, if_true] at h
      obtain ⟨rfl, -⟩ := Prod.mk.inj (Option.some.inj h)
      rfl
    · have hs1 : env.wifi_status cur.wifi = false := by simpa using hs
      simp only [hs1, Bool.false_eq_true, if_false] at h
      cases hr : wifi_wait env fuel { cur with wifi := cur.wifi + 1 } with
      | none => rw [hr] at h; simp at h
      | some r =>
        obtain ⟨evs2, cur2⟩ := r
        rw [hr] at h
        obtain ⟨rfl, -⟩ := Prod.mk.inj (Option.some.inj h)
        simp [is_publish, ih _ evs2 cur2 hr]

theorem setup_no_publish (env : Env) (fuel : Nat) (cur : Cursor) (evs : List Event)
    (cur1 : Cursor) (h : setup env fuel cur = some (evs, cur1)) :
    evs.any is_publish = false := by
  simp only [setup, setup_wifi] at h
  cases hr : wifi_wait env fuel cur with
  | none => rw [hr] at h; simp at h
  | some r =>
    obtain ⟨evs2, cur2⟩ := r
    rw [hr] at h
    obtain ⟨rfl, -⟩ := Prod.mk.inj (Option.some.inj h)
    simp [is_publish, wifi_wait_no_publish env fuel cur evs2 cur2 hr]

/-- In a run, every publish is made in state `BrokerConnected`. -/
theorem run_guarded (id : NodeIdentity) (env : Env) (fuel n : Nat) (evs : List Event)
    (cur : Cursor) (h : run id env fuel n = some (evs, cur)) :
    publish_guarded ConnectionState.Disconnected evs = true := by
  simp only [run] at h
  cases hs : setup env fuel Cursor.start with
  | none => rw [hs] at h; simp at h
  | some r =>
    obtain ⟨evs1, cur1⟩ := r
    simp only [hs] at h
    cases ht : ticks id env fuel n cur1 with
    | none => rw [ht] at h; simp at h
    | some r2 =>
      obtain ⟨rest, cur2⟩ := r2
      simp only [ht] at h
      obtain ⟨rfl, -⟩ := Prod.mk.inj (Option.some.inj h)
      rw [publish_guarded_append,
        publish_guarded_of_no_publish evs1 _ (setup_no_publish env fuel _ evs1 cur1 hs),
        ticks_guarded id env fuel n cur1 rest cur2 _ ht]
      rfl

/-! ## Reconnection makes no network association step -/

theorem observe_ne_associated (st : ConnectionState) (e : Event)
    (hst : st ≠ ConnectionState.NetworkAssociated) (he : is_wifi_step e = false) :
    st.observe e ≠ ConnectionState.NetworkAssociated := by
  cases e <;> cases st <;> simp_all [ConnectionState.observe, is_wifi_step]
  all_goals (rename_i b; cases b <;> simp)

/-- Without a network association step, the state `NetworkAssociated` is not
entered. -/
theorem state_path_skips_associated : ∀ (evs : List Event) (st : ConnectionState),
    st ≠ ConnectionState.NetworkAssociated → evs.any is_wifi_step = false →
    ConnectionState.NetworkAssociated ∉ state_path st evs := by
  intro evs
  induction evs with
  | nil =>
    intro st hst _ hmem
    simp only [state_path, List.mem_singleton] at hmem
    exact hst hmem.symm
  | cons e es ih =>
    intro st hst h hmem
    simp only [List.any_cons, Bool.or_eq_false_iff] at h
    simp only [state_path, List.mem_cons] at hmem
    rcases hmem with hmem | hmem
    · exact hst hmem.symm
    · exact ih (st.observe e) (observe_ne_associated st e hst h.1) h.2 hmem

theorem loop_body_no_wifi (id : NodeIdentity) (env : Env) (cur : Cursor) :
    (loop_body id env cur).any is_wifi_step = false := by
  obtain ⟨gas, flame, temp, humidity, score, r, g, b, text, ok, hb⟩ := loop_body_shape id env cur
  rw [hb]
  rfl

/-- The tick that finds the session lost calls `reconnect_mqtt` and then goes
on with `loop_body`. -/
theorem loop_lost (id : NodeIdentity) (env : Env) (fuel : Nat) (cur : Cursor)
    (evs : List Event) (cur1 : Cursor) (hlost : env.client_connected cur.probe = false)
    (h : loop id env fuel cur = some (evs, cur1)) :
    ∃ (evsR : List Event) (cur2 : Cursor),
      reconnect_mqtt id env fuel { cur with probe := cur.probe + 1 } = some (evsR, cur2) ∧
      evs = Event.client_connected false :: evsR ++ loop_body id env cur2 := by
  unfold loop at h
  simp only [hlost] at h
  cases hr : reconnect_mqtt id env fuel { cur with probe := cur.probe + 1 } with
  | none => rw [hr] at h; simp at h
  | some r =>
    obtain ⟨evs2, cur3⟩ := r
    rw [hr] at h
    simp only [Bool.false_eq_true, if_false] at h
    obtain ⟨rfl, -⟩ := Prod.mk.inj (Option.some.inj h)
    exact ⟨evs2, cur3, rfl, rfl⟩

/-! ## The status of the tensor allocation is not read -/

theorem wifi_wait_allocate (env : Env) (b : Bool) (fuel : Nat) :
    ∀ (cur : Cursor), wifi_wait { env with allocate_ok := b } fuel cur = wifi_wait env fuel cur := by
  induction fuel with
  | zero => intro cur; rfl
  | succ fuel ih =>
    intro cur
    simp only [wifi_wait, ih]

/-- The calls of `setup` around the tensor allocation, whose status is only
recorded. -/
theorem setup_shape (env : Env) (fuel : Nat) (cur : Cursor) (evs : List Event) (cur1 : Cursor)
    (h : setup env fuel cur = some (evs, cur1)) :
    ∃ (pre : List Event),
      evs = pre ++ Event.allocate_tensors env.allocate_ok ::
        [Event.bind_input, Event.bind_output] ∧
      ∀ b, setup { env with allocate_ok := b } fuel cur =
        some (pre ++ Event.allocate_tensors b :: [Event.bind_input, Event.bind_output], cur1) := by
  simp only [setup, setup_wifi] at h
  cases hr : wifi_wait env fuel cur with
  | none => rw [hr] at h; simp at h
  | some r =>
    obtain ⟨evs2, cur2⟩ := r
    simp only [hr] at h
    obtain ⟨rfl, rfl⟩ := Prod.mk.inj (Option.some.inj h)
    refine ⟨Event.serial_begin 115200 :: Event.rgb_begin :: Event.wifi_begin ssid password ::
      (evs2 ++ [Event.serial_println "WiFi connected"]) ++
      [Event.set_insecure, Event.set_server mqtt_server mqtt_port, Event.get_model,
       Event.add_fully_connected, Event.add_relu, Event.add_logistic,
       Event.new_interpreter kTensorArenaSize], by simp, ?_⟩
    intro b
    simp [setup, setup_wifi, wifi_wait_allocate, hr]

/-! ## The tick followed as far as its behaviour is defined -/

theorem loop_body_split (id : NodeIdentity) (env : Env) (cur : Cursor) :
    loop_body id env cur =
      loop_sampling env cur ++ (loop_inference id env cur ++
        loop_report env cur
          (loop_branch id (random env 0 100 cur.rand) (random env 0 2 (cur.rand + 1))
            (random env 20 50 (cur.rand + 2)) (random env 40 100 (cur.rand + 3))
            (env.output cur.inv)).2) :=
  rfl

theorem msg_store_some (text msg : String) (h : msg_store text = some msg) :
    msg = text ∧ text.utf8ByteSize + 1 ≤ msg_size := by
  unfold msg_store at h
  by_cases hfit : text.utf8ByteSize + 1 ≤ msg_size
  · rw [if_pos hfit] at h
    exact ⟨(Option.some.inj h).symm, hfit⟩
  · rw [if_neg hfit] at h
    exact absurd h (by simp)

theorem msg_store_fits (text : String) (h : text.utf8ByteSize + 1 ≤ msg_size) :
    msg_store text = some text := by
  unfold msg_store
  rw [if_pos h]

theorem connection_check_returns (id : NodeIdentity) (env : Env) (cur : Cursor) (k fuel : Nat)
    (h : env.client_connected (cur.probe + k) = true) (hf : k ≤ fuel) :
    ∃ r, connection_check id env fuel cur = some r := by
  unfold connection_check
  by_cases hp : env.client_connected cur.probe = true
  · simp only [hp, if_true]
    exact ⟨_, rfl⟩
  · have hp1 : env.client_connected cur.probe = false := by simpa using hp
    have hk : 0 < k := by
      rcases Nat.eq_zero_or_pos k with h0 | h0
      · rw [h0] at h; simp [hp1] at h
      · exact h0
    obtain ⟨r, hr⟩ := reconnect_mqtt_returns id env (k - 1) { cur with probe := cur.probe + 1 }
      fuel (by
        have e : cur.probe + 1 + (k - 1) = cur.probe + k := by omega
        simpa [e] using h) (by omega)
    simp only [hp1, hr]
    exact ⟨_, rfl⟩

/-- A tick that returns has stored a message that fits `msg` and published
it. -/
theorem loop_checked_returned (id : NodeIdentity) (env : Env) (fuel : Nat) (cur : Cursor)
    (evs : List Event) (cur1 : Cursor)
    (h : loop_checked id env fuel cur = some (Outcome.returned evs cur1)) :
    ∃ (cur2 : Cursor) (msg : String),
      loop_msg id (random env 0 100 cur2.rand) (random env 0 2 (cur2.rand + 1))
        (random env 20 50 (cur2.rand + 2)) (random env 40 100 (cur2.rand + 3))
        (env.output cur2.inv) = some msg ∧
      Event.client_publish mqtt_topic msg (env.client_publish cur2.pub) ∈ evs := by
  unfold loop_checked at h
  cases hc : connection_check id env fuel cur with
  | none => rw [hc] at h; simp at h
  | some r =>
    obtain ⟨evsC, cur2⟩ := r
    simp only [hc] at h
    by_cases ha : env.allocate_ok = true
    · simp only [ha, if_true] at h
      cases hm : loop_msg id (random env 0 100 cur2.rand) (random env 0 2 (cur2.rand + 1))
          (random env 20 50 (cur2.rand + 2)) (random env 40 100 (cur2.rand + 3))
          (env.output cur2.inv) with
      | none => rw [hm] at h; simp at h
      | some msg =>
        simp only [hm] at h
        obtain ⟨rfl, -⟩ := Outcome.returned.inj (Option.some.inj h)
        exact ⟨cur2, msg, hm, by simp [loop_report]⟩
    · simp only [ha] at h
      simp at h

/-- A tick that returns under `loop_checked` made the calls of `loop`. -/
theorem loop_checked_agrees (id : NodeIdentity) (env : Env) (fuel : Nat) (cur : Cursor)
    (evs : List Event) (cur1 : Cursor)
    (h : loop_checked id env fuel cur = some (Outcome.returned evs cur1)) :
    loop id env fuel cur = some (evs, cur1) := by
  unfold loop_checked at h
  unfold connection_check at h
  unfold loop
  cases hr : (if env.client_connected cur.probe = true then
      some (([] : List Event), { cur with probe := cur.probe + 1 })
      else reconnect_mqtt id env fuel { cur with probe := cur.probe + 1 }) with
  | none => simp only [hr] at h; simp at h
  | some r =>
    obtain ⟨evsR, cur2⟩ := r
    simp only [hr] at h ⊢
    by_cases ha : env.allocate_ok = true
    · simp only [ha, if_true] at h
      cases hm : loop_msg id (random env 0 100 cur2.rand) (random env 0 2 (cur2.rand + 1))
          (random env 20 50 (cur2.rand + 2)) (random env 40 100 (cur2.rand + 3))
          (env.output cur2.inv) with
      | none => rw [hm] at h; simp at h
      | some msg =>
        simp only [hm] at h
        obtain ⟨rfl, rfl⟩ := Outcome.returned.inj (Option.some.inj h)
        obtain ⟨rfl, -⟩ := msg_store_some _ _ hm
        rw [loop_body_split]
    · simp only [ha] at h
      simp at h

/-- The first tick after a failed tensor allocation: its connection check,
session maintenance and sensor reads are made, and the write to the input
tensor that follows is not defined. -/
theorem loop_checked_failed_load (id : NodeIdentity) (env : Env) (fuel : Nat) (cur : Cursor)
    (evsC : List Event) (cur2 : Cursor) (hfail : env.allocate_ok = false)
    (hc : connection_check id env fuel cur = some (evsC, cur2)) :
    loop_checked id env fuel cur =
      some (Outcome.undefined (evsC ++ loop_sampling env cur2) Fault.tensor_write) := by
  simp [loop_checked, hc, hfail]

/-! ## The configured identity and 32-bit readings -/

/-- An `int` prints as at most eleven characters. -/
theorem dec_length_int (i : Int) (h0 : -2147483648 ≤ i) (h1 : i ≤ 2147483647) :
    (dec i).length ≤ 11 := by
  by_cases hneg : i < 0
  · have hrepr : dec i = "-" ++ Nat.repr i.natAbs := by simp [dec, hneg]
    have hlen := Nat.repr_length i.natAbs 10 (by decide) (by omega)
    rw [hrepr, String.length_append]
    have : "-".length = 1 := by decide
    omega
  · have hrepr : dec i = Nat.repr i.toNat := by simp [dec, hneg]
    have hlen := Nat.repr_length i.toNat 10 (by decide) (by omega)
    rw [hrepr]
    omega

/-- For the configured identity the message of any four `int` readings fits
`msg`. -/
theorem configured_message_fits (a : Bool) (gas flame temp humidity : Int)
    (hg : -2147483648 ≤ gas ∧ gas ≤ 2147483647) (hf : -2147483648 ≤ flame ∧ flame ≤ 2147483647)
    (ht : -2147483648 ≤ temp ∧ temp ≤ 2147483647)
    (hh : -2147483648 ≤ humidity ∧ humidity ≤ 2147483647) :
    (spec_message configured (label_text a) gas flame temp humidity).utf8ByteSize + 1 ≤
      msg_size := by
  rw [configured_message_bytes, configured_message_length]
  have l0 := label_text_length a
  have l1 := dec_length_int gas hg.1 hg.2
  have l2 := dec_length_int flame hf.1 hf.2
  have l3 := dec_length_int temp ht.1 ht.2
  have l4 := dec_length_int humidity hh.1 hh.2
  simp only [msg_size]
  omega

/-! ## Environments in which the probe disagrees with the connect outcome -/

theorem reconnect_mqtt_stuck (id : NodeIdentity) (fuel : Nat) :
    ∀ (cur : Cursor), reconnect_mqtt id env_stuck fuel cur = none := by
  induction fuel with
  | zero => intro cur; rfl
  | succ fuel ih =>
    intro cur
    rw [reconnect_mqtt_lost id env_stuck fuel cur rfl, ih]

/-! ## The run in the concrete environment -/

theorem demo_branch :
    loop_branch configured 42 1 30 55 (CFloat.finite 0.8) =
      (Event.set_pixel_color 0 255 0 0,
       "Node1A|Floor 1|Zone A|Anomaly detected! Gas:42 Flame:1 Temp:30 Hum:55") := by
  have hgt : (CFloat.finite 0.8).gt 0.5 = true := by
    rw [gt_finite]; norm_num
  unfold loop_branch
  rw [if_pos hgt]
  rfl

theorem demo_setup : setup env_demo 5 Cursor.start = some (demo_setup_trace, demo_cursor_setup) :=
  rfl

theorem demo_loop :
    loop configured env_demo 5 demo_cursor_setup = some (demo_tick_trace, demo_cursor_tick) := by
  have h : loop configured env_demo 5 demo_cursor_setup =
      some (demo_connect_phase ++ (demo_before_publish.take 11 ++
        [(loop_branch configured 42 1 30 55 (CFloat.finite 0.8)).1,
         Event.client_publish mqtt_topic
           (loop_branch configured 42 1 30 55 (CFloat.finite 0.8)).2 false,
         Event.rgb_show, Event.delay 2000]), demo_cursor_tick) := rfl
  rw [h, demo_branch]
  rfl

theorem demo_run :
    run configured env_demo 5 1 = some (demo_setup_trace ++ demo_tick_trace, demo_cursor_tick) := by
  simp only [run, ticks, demo_setup, demo_loop, List.append_nil]

set_option maxRecDepth 16000

/-! ## The status message -/

/-- C1, as the code has it: for every identity, all integer readings and every
score whose formatted text has at most 149 bytes, so that it fits the 150
bytes of `msg` with its final NUL, the message a tick builds is the node, floor
and zone identifiers, each followed by a pipe, then the classification label,
then " Gas:", " Flame:", " Temp:" and " Hum:" each followed by the unpadded
decimal rendering of its reading.  Every tick that returns has published the
message of this form for its readings and score.  For the configured identity
the text fits whatever the four 32-bit readings are, and for reading 42, 1,
30, 55 and score 0.8 the message is the text of the specification. -/
theorem status_message_when_fits (id : NodeIdentity) (gas flame temp humidity : Int)
    (score : CFloat)
    (hfit : (spec_message id (spec_label score) gas flame temp humidity).utf8ByteSize + 1 ≤
      msg_size) :
    loop_msg id gas flame temp humidity score =
      some (id.node_id ++ "|" ++ id.floor_id ++ "|" ++ id.zone_id ++ "|" ++ spec_label score ++
        " Gas:" ++ dec gas ++ " Flame:" ++ dec flame ++ " Temp:" ++ dec temp ++
        " Hum:" ++ dec humidity) ∧
    (∀ (env : Env) (fuel : Nat) (cur : Cursor) (evs : List Event) (cur1 : Cursor),
      loop_checked id env fuel cur = some (Outcome.returned evs cur1) →
      ∃ (cur2 : Cursor),
        Event.client_publish mqtt_topic
          (spec_message id (spec_label (env.output cur2.inv))
            (random env 0 100 cur2.rand) (random env 0 2 (cur2.rand + 1))
            (random env 20 50 (cur2.rand + 2)) (random env 40 100 (cur2.rand + 3)))
          (env.client_publish cur2.pub) ∈ evs) ∧
    (∀ (g f t h : Int) (p : CFloat),
      -2147483648 ≤ g ∧ g ≤ 2147483647 → -2147483648 ≤ f ∧ f ≤ 2147483647 →
      -2147483648 ≤ t ∧ t ≤ 2147483647 → -2147483648 ≤ h ∧ h ≤ 2147483647 →
      loop_msg configured g f t h p = some (spec_message configured (spec_label p) g f t h)) ∧
    loop_msg configured 42 1 30 55 (CFloat.finite 0.8) =
      some "Node1A|Floor 1|Zone A|Anomaly detected! Gas:42 Flame:1 Temp:30 Hum:55" := by
  have hconf : ∀ (g f t h : Int) (p : CFloat),
      -2147483648 ≤ g ∧ g ≤ 2147483647 → -2147483648 ≤ f ∧ f ≤ 2147483647 →
      -2147483648 ≤ t ∧ t ≤ 2147483647 → -2147483648 ≤ h ∧ h ≤ 2147483647 →
      loop_msg configured g f t h p =
        some (spec_message configured (spec_label p) g f t h) := by
    intro g f t h p hg hf ht hh
    unfold loop_msg
    rw [loop_branch_msg]
    apply msg_store_fits
    rw [spec_label_eq]
    exact configured_message_fits _ g f t h hg hf ht hh
  refine ⟨?_, ?_, hconf, ?_⟩
  · unfold loop_msg
    rw [loop_branch_msg]
    exact msg_store_fits _ hfit
  · intro env fuel cur evs cur1 h
    obtain ⟨cur2, msg, hm, hmem⟩ := loop_checked_returned id env fuel cur evs cur1 h
    unfold loop_msg at hm
    rw [loop_branch_msg] at hm
    obtain ⟨rfl, -⟩ := msg_store_some _ _ hm
    exact ⟨cur2, hmem⟩
  · have hgt : (CFloat.finite 0.8).gt 0.5 = true := by
      rw [gt_finite]; norm_num
    rw [hconf 42 1 30 55 _ (by decide) (by decide) (by decide) (by decide),
      spec_label_anomaly _ hgt]
    decide

theorem status_message_when_fits_witness :
    (spec_message configured (spec_label CFloat.posInf) 42 1 30 55).utf8ByteSize + 1 ≤ msg_size ∧
    loop_msg configured 42 1 30 55 CFloat.posInf =
      some (configured.node_id ++ "|" ++ configured.floor_id ++ "|" ++ configured.zone_id ++
        "|" ++ spec_label CFloat.posInf ++
        " Gas:" ++ dec 42 ++ " Flame:" ++ dec 1 ++ " Temp:" ++ dec 30 ++ " Hum:" ++ dec 55) :=
  ⟨by decide, (status_message_when_fits configured 42 1 30 55 CFloat.posInf (by decide)).1⟩

/-- C1 as stated fails: with a node identifier of 118 characters the text
formatted for reading 42, 1, 30, 55 and score 0.8 has 181 bytes, `sprintf`
writes past the 150 bytes of `msg` and no message is built; the tick set the
colour and leaves defined behaviour before any publish. -/
theorem long_identity_message_counterexample :
    (spec_message long_identity "Anomaly detected!" 42 1 30 55).utf8ByteSize = 181 ∧
    loop_msg long_identity 42 1 30 55 (CFloat.finite 0.8) = none ∧
    loop_checked long_identity env_loaded 5 demo_cursor_setup =
      some (Outcome.undefined
        (Event.client_connected false ::
          expected_reconnect_trace long_identity 2 ++ demo_before_publish)
        Fault.msg_overflow) ∧
    (Event.client_connected false ::
      expected_reconnect_trace long_identity 2 ++ demo_before_publish).any is_publish = false := by
  have hb : loop_branch long_identity 42 1 30 55 (CFloat.finite 0.8) =
      (Event.set_pixel_color 0 255 0 0,
       spec_message long_identity "Anomaly detected!" 42 1 30 55) := by
    have hgt : (CFloat.finite 0.8).gt 0.5 = true := by
      rw [gt_finite]; norm_num
    have h2 := loop_branch_msg long_identity 42 1 30 55 (CFloat.finite 0.8)
    rw [spec_label_anomaly _ hgt] at h2
    have h1 : (loop_branch long_identity 42 1 30 55 (CFloat.finite 0.8)).1 =
        Event.set_pixel_color 0 255 0 0 := by
      unfold loop_branch
      rw [if_pos hgt]
    exact Prod.ext h1 h2
  have hstore : msg_store (spec_message long_identity "Anomaly detected!" 42 1 30 55) = none := by
    decide
  have hmsg : loop_msg long_identity 42 1 30 55 (CFloat.finite 0.8) = none := by
    unfold loop_msg
    rw [hb]
    exact hstore
  refine ⟨by decide, hmsg, ?_, by decide⟩
  have h : loop_checked long_identity env_loaded 5 demo_cursor_setup =
      (match loop_msg long_identity 42 1 30 55 (CFloat.finite 0.8) with
      | none =>
        some (Outcome.undefined
          (Event.client_connected false :: expected_reconnect_trace long_identity 2 ++
            (demo_sampling ++ (demo_before_publish.drop 5).take 6 ++
              [(loop_branch long_identity 42 1 30 55 (CFloat.finite 0.8)).1]))
          Fault.msg_overflow)
      | some msg =>
        some (Outcome.returned
          (Event.client_connected false :: expected_reconnect_trace long_identity 2 ++
            (demo_sampling ++ ((demo_before_publish.drop 5).take 6 ++
              [(loop_branch long_identity 42 1 30 55 (CFloat.finite 0.8)).1] ++
              loop_report env_loaded demo_cursor_connected msg)))
          demo_cursor_tick)) := rfl
  rw [h, hmsg, hb]
  rfl

/-- C2: the label a tick puts in its message is "Anomaly detected!" if and only
if the score is above 0.5 and "Normal" otherwise (a NaN score compares false
and gives "Normal"); the score 0.5 gives "Normal" and the score 0.5000001 gives
"Anomaly detected!", as does the single-precision float nearest to it,
8388610 / 2^24. -/
theorem label_threshold :
    (∀ (id : NodeIdentity) (gas flame temp humidity : Int) (q : ℚ),
      ((loop_branch id gas flame temp humidity (CFloat.finite q)).2 =
          spec_message id "Anomaly detected!" gas flame temp humidity ↔ q > 0.5) ∧
      ((loop_branch id gas flame temp humidity (CFloat.finite q)).2 =
          spec_message id "Normal" gas flame temp humidity ↔ ¬ q > 0.5)) ∧
    (∀ (id : NodeIdentity) (gas flame temp humidity : Int),
      (loop_branch id gas flame temp humidity CFloat.posInf).2 =
          spec_message id "Anomaly detected!" gas flame temp humidity ∧
      (loop_branch id gas flame temp humidity CFloat.negInf).2 =
          spec_message id "Normal" gas flame temp humidity ∧
      (loop_branch id gas flame temp humidity CFloat.nan).2 =
          spec_message id "Normal" gas flame temp humidity) ∧
    (∀ (id : NodeIdentity) (gas flame temp humidity : Int),
      (loop_branch id gas flame temp humidity (CFloat.finite 0.5)).2 =
          spec_message id "Normal" gas flame temp humidity ∧
      (loop_branch id gas flame temp humidity (CFloat.finite 0.5000001)).2 =
          spec_message id "Anomaly detected!" gas flame temp humidity ∧
      (loop_branch id gas flame temp humidity (CFloat.finite (8388610 / 16777216))).2 =
          spec_message id "Anomaly detected!" gas flame temp humidity) := by
  refine ⟨?_, ?_, ?_⟩
  · intro id gas flame temp humidity q
    have h := loop_branch_label id gas flame temp humidity (CFloat.finite q)
    refine ⟨h.1.trans (gt_finite q 0.5), h.2.trans ?_⟩
    rw [← gt_finite q 0.5]
    simp
  · intro id gas flame temp humidity
    exact ⟨(loop_branch_label id gas flame temp humidity CFloat.posInf).1.2 rfl,
      (loop_branch_label id gas flame temp humidity CFloat.negInf).2.2 rfl,
      (loop_branch_label id gas flame temp humidity CFloat.nan).2.2 rfl⟩
  · intro id gas flame temp humidity
    refine ⟨(loop_branch_label id gas flame temp humidity _).2.2 ?_,
      (loop_branch_label id gas flame temp humidity _).1.2 ?_,
      (loop_branch_label id gas flame temp humidity _).1.2 ?_⟩
    · simp [CFloat.gt]
    · rw [gt_finite]; norm_num
    · rw [gt_finite]; norm_num

/-- C3: for the configured identity "Node1A", "Floor 1", "Zone A", every
reading with gas in [0,100], flame in {0,1}, temperature in [20,50] and
humidity in [40,100], and either label, the formatted message has at most 149
bytes (and characters), so with its final NUL it fits the 150 bytes of `msg`;
the readings a tick draws are in these ranges, so the message of every tick
fits. -/
theorem message_fits_buffer (gas flame temp humidity : Int) (score : CFloat)
    (hgas : 0 ≤ gas ∧ gas ≤ 100) (hflame : flame = 0 ∨ flame = 1)
    (htemp : 20 ≤ temp ∧ temp ≤ 50) (hhum : 40 ≤ humidity ∧ humidity ≤ 100) :
    (loop_branch configured gas flame temp humidity score).2.utf8ByteSize + 1 ≤ msg_size ∧
    (loop_branch configured gas flame temp humidity score).2.length ≤ 149 ∧
    (∀ (env : Env) (cur : Cursor) (topic text : String) (ok : Bool),
      Event.client_publish topic text ok ∈ loop_body configured env cur →
        text.utf8ByteSize + 1 ≤ msg_size) := by
  have bound : ∀ (g f t h : Int) (p : CFloat), 0 ≤ g ∧ g ≤ 100 → 0 ≤ f ∧ f ≤ 1 →
      20 ≤ t ∧ t ≤ 50 → 40 ≤ h ∧ h ≤ 100 →
      (loop_branch configured g f t h p).2.utf8ByteSize + 1 ≤ msg_size ∧
      (loop_branch configured g f t h p).2.length ≤ 149 := by
    intro g f t h p hg hf ht hh
    rw [loop_branch_msg, spec_label_eq, configured_message_bytes, configured_message_length]
    have l0 := label_text_length (p.gt 0.5)
    have l1 := dec_length_le_three g hg.1 (by omega)
    have l2 := dec_length_le_one f hf.1 (by omega)
    have l3 := dec_length_le_two t (by omega) (by omega)
    have l4 := dec_length_le_three h (by omega) (by omega)
    simp only [msg_size]
    omega
  refine ⟨(bound gas flame temp humidity score hgas (by omega) htemp hhum).1,
    (bound gas flame temp humidity score hgas (by omega) htemp hhum).2, ?_⟩
  intro env cur topic text ok hmem
  have r1 := random_range env 0 100 cur.rand (by omega)
  have r2 := random_range env 0 2 (cur.rand + 1) (by omega)
  have r3 := random_range env 20 50 (cur.rand + 2) (by omega)
  have r4 := random_range env 40 100 (cur.rand + 3) (by omega)
  have htext : text = (loop_branch configured (random env 0 100 cur.rand)
      (random env 0 2 (cur.rand + 1)) (random env 20 50 (cur.rand + 2))
      (random env 40 100 (cur.rand + 3)) (env.output cur.inv)).2 := by
    simp only [loop_body, List.mem_cons, List.mem_singleton] at hmem
    rcases hmem with h | h | h | h | h | h | h | h | h | h | h | h | h | h | h | h
    all_goals first
      | exact (Event.client_publish.inj h).2.1
      | (exfalso; revert h; unfold loop_branch; split <;> simp)
      | cases h
  rw [htext]
  exact (bound _ _ _ _ _ ⟨r1.1, by omega⟩ ⟨r2.1, by omega⟩ ⟨r3.1, by omega⟩
    ⟨r4.1, by omega⟩).1

theorem message_fits_buffer_witness :
    ((0 : Int) ≤ 100 ∧ (100 : Int) ≤ 100) ∧
    ((loop_branch configured 100 1 50 100 (CFloat.finite 0.8)).2.utf8ByteSize + 1 ≤ msg_size ∧
     (loop_branch configured 100 1 50 100 (CFloat.finite 0.8)).2.length ≤ 149 ∧
     (∀ (env : Env) (cur : Cursor) (topic text : String) (ok : Bool),
       Event.client_publish topic text ok ∈ loop_body configured env cur →
         text.utf8ByteSize + 1 ≤ msg_size)) :=
  ⟨by decide, message_fits_buffer 100 1 50 100 (CFloat.finite 0.8) (by decide) (by decide)
    (by decide) (by decide)⟩

/-- C4, as the code has it: the loop of `reconnect_mqtt` ends on the liveness
probe, not on the outcome of the connect attempt.  When it is entered with the
session not connected, the sequence of connect outcomes contains a success,
and the probe after each attempt up to the first successful one reports the
outcome of that attempt, then with `k` the number of failed attempts before
the first success the call returns (for every fuel from `k + 2` on), having
made exactly the calls of `expected_reconnect_trace`: `k` times a probe, a
failed attempt and the 5000 ms backoff, then a probe, the successful attempt
with no backoff after it, and a last probe that reports the session live.
Whatever the probe and the broker do, when the call returns its last call is a
probe that reported the session live, and the state is `BrokerConnected`. -/
theorem reconnect_until_first_success (id : NodeIdentity) :
    (∀ (env : Env) (cur : Cursor),
      env.client_connected cur.probe = false →
      (∀ j, (∀ i, i < j → env.client_connect (cur.conn + i) = false) →
        env.client_connected (cur.probe + j + 1) = env.client_connect (cur.conn + j)) →
      (∃ j, env.client_connect (cur.conn + j) = true) →
      ∃ k, env.client_connect (cur.conn + k) = true ∧
        (∀ j, j < k → env.client_connect (cur.conn + j) = false) ∧
        (∀ fuel, k + 2 ≤ fuel →
          reconnect_mqtt id env fuel cur =
            some (expected_reconnect_trace id k,
              { cur with probe := cur.probe + k + 2, conn := cur.conn + k + 1 })) ∧
        (expected_reconnect_trace id k).countP is_connect_attempt = k + 1 ∧
        (expected_reconnect_trace id k).getLast? = some (Event.client_connected true) ∧
        state_after ConnectionState.Disconnected (expected_reconnect_trace id k) =
          ConnectionState.BrokerConnected) ∧
    (∀ (env : Env) (fuel : Nat) (cur : Cursor) (evs : List Event) (cur1 : Cursor)
        (st : ConnectionState),
      reconnect_mqtt id env fuel cur = some (evs, cur1) →
      evs.getLast? = some (Event.client_connected true) ∧
        state_after st evs = ConnectionState.BrokerConnected) := by
  constructor
  · intro env cur hentry hprobe hsucc
    classical
    have hmin : ∀ j, j < Nat.find hsucc → env.client_connect (cur.conn + j) = false := by
      intro j hj
      have := Nat.find_min hsucc hj
      simpa using this
    refine ⟨Nat.find hsucc, Nat.find_spec hsucc, hmin, ?_, ?_, ?_, ?_⟩
    · intro fuel hfuel
      exact reconnect_mqtt_first_success id env (Nat.find hsucc) cur hentry
        (fun j hj => hprobe j (fun i hi => hmin i (by omega))) (Nat.find_spec hsucc)
        hmin fuel hfuel
    · generalize Nat.find hsucc = k
      induction k with
      | zero => rfl
      | succ k ih =>
        simp only [expected_reconnect_trace, List.countP_cons, ih, is_connect_attempt]
        simp
    · generalize Nat.find hsucc = k
      induction k with
      | zero => rfl
      | succ k ih =>
        cases k with
        | zero => rfl
        | succ k => simpa [expected_reconnect_trace] using ih
    · generalize Nat.find hsucc = k
      induction k with
      | zero => rfl
      | succ k ih =>
        simpa [expected_reconnect_trace, state_after, ConnectionState.observe] using ih
  · intro env fuel cur evs cur1 st h
    obtain ⟨-, init, hinit⟩ := reconnect_mqtt_steps id env fuel cur evs cur1 h
    rw [hinit]
    exact ⟨by simp, state_after_probe_live st init⟩

theorem reconnect_until_first_success_witness :
    env_demo.client_connected 1 = false ∧
    (∀ j, (∀ i, i < j → env_demo.client_connect (0 + i) = false) →
      env_demo.client_connected (1 + j + 1) = env_demo.client_connect (0 + j)) ∧
    (∃ j, env_demo.client_connect (0 + j) = true) ∧
    ∃ k, env_demo.client_connect (0 + k) = true ∧
      (∀ j, j < k → env_demo.client_connect (0 + j) = false) ∧
      (∀ fuel, k + 2 ≤ fuel →
        reconnect_mqtt configured env_demo fuel { demo_cursor_setup with probe := 1 } =
          some (expected_reconnect_trace configured k,
            { demo_cursor_setup with probe := 1 + k + 2, conn := 0 + k + 1 })) ∧
      (expected_reconnect_trace configured k).countP is_connect_attempt = k + 1 ∧
      (expected_reconnect_trace configured k).getLast? = some (Event.client_connected true) ∧
      state_after ConnectionState.Disconnected (expected_reconnect_trace configured k) =
        ConnectionState.BrokerConnected :=
  ⟨rfl, fun j _ => by simp [env_demo]; omega, ⟨2, rfl⟩,
    (reconnect_until_first_success configured).1 env_demo
      { demo_cursor_setup with probe := 1 } rfl
      (fun j _ => by simp [env_demo, demo_cursor_setup]; omega) ⟨2, rfl⟩⟩

/-- C4 as stated fails: the sequence of connect outcomes of `env_stuck` and of
`env_late` contains a success (every attempt succeeds) and `reconnect_mqtt` is
entered with the session not connected; in `env_stuck`, where the probe never
finds the session live, the call does not return, whatever the fuel; in
`env_late`, where the probe finds it live from its third call on, the call
makes a second connect attempt after the first successful one. -/
theorem probe_disagrees_counterexample :
    env_stuck.client_connected 0 = false ∧
    env_stuck.client_connect 0 = true ∧
    (∀ fuel, reconnect_mqtt configured env_stuck fuel Cursor.start = none) ∧
    env_late.client_connected 0 = false ∧
    env_late.client_connect 0 = true ∧
    reconnect_mqtt configured env_late 5 Cursor.start =
      some ([Event.client_connected false,
             Event.client_connect "Node1A" "Esp32_C6" "Miniproject1" true,
             Event.serial_println "Connected to HiveMQ Cloud",
             Event.client_connected false,
             Event.client_connect "Node1A" "Esp32_C6" "Miniproject1" true,
             Event.serial_println "Connected to HiveMQ Cloud",
             Event.client_connected true],
        { Cursor.start with probe := 3, conn := 2 }) :=
  ⟨rfl, rfl, fun fuel => reconnect_mqtt_stuck configured fuel Cursor.start, rfl, rfl, rfl⟩

/-- C5: in every run (setup followed by any number of ticks, whatever the
network, the broker, the sensors and the classifier do), at each call of
publish the connection state determined by the calls made before it is
`BrokerConnected`, so publish is never called in state `Disconnected` or
`NetworkAssociated`. -/
theorem publish_only_when_connected (id : NodeIdentity) (env : Env) (fuel n : Nat)
    (evs : List Event) (cur : Cursor) (h : run id env fuel n = some (evs, cur))
    (pre post : List Event) (topic text : String) (ok : Bool)
    (hsplit : evs = pre ++ Event.client_publish topic text ok :: post) :
    connection_state pre = ConnectionState.BrokerConnected :=
  state_at_publish pre ConnectionState.Disconnected evs post topic text ok
    (run_guarded id env fuel n evs cur h) hsplit

theorem publish_only_when_connected_witness :
    run configured env_demo 5 1 =
      some (demo_setup_trace ++ demo_tick_trace, demo_cursor_tick) ∧
    connection_state (demo_setup_trace ++ (demo_connect_phase ++ demo_before_publish)) =
      ConnectionState.BrokerConnected :=
  ⟨demo_run,
    publish_only_when_connected configured env_demo 5 1 _ _ demo_run
      (demo_setup_trace ++ (demo_connect_phase ++ demo_before_publish))
      [Event.rgb_show, Event.delay 2000] "tinyml/anomaly"
      "Node1A|Floor 1|Zone A|Anomaly detected! Gas:42 Flame:1 Temp:30 Hum:55" false rfl⟩

/-- C6, as the code has it: the tick that finds the session lost calls
`reconnect_mqtt`, which only probes the session and attempts broker connects.
No network association step (`WiFi.begin`, `WiFi.status`) is made or checked in
the tick, the state `NetworkAssociated` is not entered, and when
`reconnect_mqtt` returns the state, `Disconnected` after the failed probe, is
`BrokerConnected`.  The tick returns as soon as one of the probes the fuel
allows finds the session live, with no other intervention. -/
theorem reconnect_skips_association (id : NodeIdentity) (env : Env) (fuel : Nat) (cur : Cursor)
    (hlost : env.client_connected cur.probe = false) :
    (∀ (evs : List Event) (cur1 : Cursor), loop id env fuel cur = some (evs, cur1) →
      ∃ (evsR : List Event) (cur2 : Cursor),
        reconnect_mqtt id env fuel { cur with probe := cur.probe + 1 } = some (evsR, cur2) ∧
        evs = Event.client_connected false :: evsR ++ loop_body id env cur2 ∧
        evs.any is_wifi_step = false ∧
        state_after ConnectionState.BrokerConnected [Event.client_connected false] =
          ConnectionState.Disconnected ∧
        state_after ConnectionState.BrokerConnected (Event.client_connected false :: evsR) =
          ConnectionState.BrokerConnected ∧
        ConnectionState.NetworkAssociated ∉ state_path ConnectionState.BrokerConnected evs) ∧
    (∀ k, k ≤ fuel → env.client_connected (cur.probe + k) = true →
      ∃ r, loop id env fuel cur = some r) := by
  constructor
  · intro evs cur1 h
    obtain ⟨evsR, cur2, hr, rfl⟩ := loop_lost id env fuel cur evs cur1 hlost h
    obtain ⟨hall, init, hinit⟩ := reconnect_mqtt_steps id env fuel _ evsR cur2 hr
    have hwifi : (Event.client_connected false :: evsR ++ loop_body id env cur2).any
        is_wifi_step = false := by
      rw [List.any_append, loop_body_no_wifi, List.any_cons,
        any_of_reconnect_steps is_wifi_step not_wifi_of_reconnect_step evsR hall]
      rfl
    refine ⟨evsR, cur2, hr, rfl, hwifi, rfl, ?_, ?_⟩
    · rw [hinit, ← List.cons_append]
      exact state_after_probe_live _ _
    · exact state_path_skips_associated _ _ (by decide) hwifi
  · intro k hk hlive
    exact loop_returns id env cur k fuel hlive hk

theorem reconnect_skips_association_witness :
    env_demo.client_connected 0 = false ∧
    loop configured env_demo 5 demo_cursor_setup = some (demo_tick_trace, demo_cursor_tick) ∧
    ∃ (evsR : List Event) (cur2 : Cursor),
      reconnect_mqtt configured env_demo 5 { demo_cursor_setup with probe := 0 + 1 } =
        some (evsR, cur2) ∧
      demo_tick_trace = Event.client_connected false :: evsR ++ loop_body configured env_demo cur2 ∧
      demo_tick_trace.any is_wifi_step = false ∧
      state_after ConnectionState.BrokerConnected [Event.client_connected false] =
        ConnectionState.Disconnected ∧
      state_after ConnectionState.BrokerConnected (Event.client_connected false :: evsR) =
        ConnectionState.BrokerConnected ∧
      ConnectionState.NetworkAssociated ∉
        state_path ConnectionState.BrokerConnected demo_tick_trace :=
  ⟨rfl, demo_loop,
    (reconnect_skips_association configured env_demo 5 demo_cursor_setup rfl).1 demo_tick_trace
      demo_cursor_tick demo_loop⟩

/-- C6 as stated fails: in `env_demo` the tick that finds the session lost
returns with the session connected, yet its calls contain no network
association step, and the connection state goes from `BrokerConnected` to
`Disconnected` and back to `BrokerConnected` without being
`NetworkAssociated`. -/
theorem reconnect_association_counterexample :
    env_demo.client_connected 0 = false ∧
    loop configured env_demo 5 demo_cursor_setup = some (demo_tick_trace, demo_cursor_tick) ∧
    demo_tick_trace.any is_wifi_step = false ∧
    spec_reassociates ConnectionState.BrokerConnected demo_tick_trace = false ∧
    state_path ConnectionState.BrokerConnected demo_connect_phase =
      [ConnectionState.BrokerConnected,
       ConnectionState.Disconnected, ConnectionState.Disconnected, ConnectionState.Disconnected,
       ConnectionState.Disconnected, ConnectionState.Disconnected, ConnectionState.Disconnected,
       ConnectionState.Disconnected, ConnectionState.Disconnected,
       ConnectionState.BrokerConnected, ConnectionState.BrokerConnected,
       ConnectionState.BrokerConnected] :=
  ⟨rfl, demo_loop, rfl, rfl, rfl⟩

/-! ## Model loading -/

/-- C7, as the code has it: `setup` has no failure path for the classifier.
The status of the tensor allocation is discarded: `setup` returns in the same
cases whether the allocation fails or succeeds, namely as soon as the network
reports associated, and its calls are the same, the recorded status apart.
After a failed allocation the node proceeds to the main cycle: the first tick
makes its connection check, its session maintenance call and its sensor reads.
Nothing is said of that tick from its first write to the input tensor on,
which the C language does not define. -/
theorem setup_ignores_model_load (id : NodeIdentity) (env : Env) (fuel n : Nat) :
    (∀ (cur : Cursor), (setup { env with allocate_ok := false } fuel cur).isSome =
      (setup { env with allocate_ok := true } fuel cur).isSome) ∧
    (∀ (cur : Cursor) (k : Nat), k < fuel → env.wifi_status (cur.wifi + k) = true →
      ∃ r, setup env fuel cur = some r) ∧
    (∀ (cur : Cursor) (evs : List Event) (cur1 : Cursor), setup env fuel cur = some (evs, cur1) →
      ∃ (pre : List Event),
        evs = pre ++ Event.allocate_tensors env.allocate_ok ::
          [Event.bind_input, Event.bind_output] ∧
        ∀ b, setup { env with allocate_ok := b } fuel cur =
          some (pre ++ Event.allocate_tensors b :: [Event.bind_input, Event.bind_output],
            cur1)) ∧
    (∀ (evs0 : List Event) (cur0 : Cursor) (evsC : List Event) (cur2 : Cursor),
      env.allocate_ok = false → setup env fuel Cursor.start = some (evs0, cur0) →
      connection_check id env fuel cur0 = some (evsC, cur2) →
      run_checked id env fuel (n + 1) =
        some (Outcome.undefined (evs0 ++ (evsC ++ loop_sampling env cur2))
          Fault.tensor_write)) ∧
    (∀ (cur : Cursor) (k : Nat), k ≤ fuel → env.client_connected (cur.probe + k) = true →
      ∃ r, connection_check id env fuel cur = some r) := by
  refine ⟨?_, ?_, ?_, ?_, ?_⟩
  · intro cur
    simp only [setup, setup_wifi, wifi_wait_allocate]
    cases wifi_wait env fuel cur <;> rfl
  · intro cur k hk hw
    exact setup_returns env k cur fuel hw hk
  · intro cur evs cur1 h
    exact setup_shape env fuel cur evs cur1 h
  · intro evs0 cur0 evsC cur2 hfail hs hc
    simp only [run_checked, hs, ticks_checked,
      loop_checked_failed_load id env fuel cur0 evsC cur2 hfail hc]
  · intro cur k hk hlive
    exact connection_check_returns id env cur k fuel hlive hk

theorem setup_ignores_model_load_witness :
    env_demo.allocate_ok = false ∧
    setup env_demo 5 Cursor.start = some (demo_setup_trace, demo_cursor_setup) ∧
    connection_check configured env_demo 5 demo_cursor_setup =
      some (demo_connect_phase, demo_cursor_connected) ∧
    run_checked configured env_demo 5 (0 + 1) =
      some (Outcome.undefined
        (demo_setup_trace ++ (demo_connect_phase ++ loop_sampling env_demo demo_cursor_connected))
        Fault.tensor_write) :=
  ⟨rfl, demo_setup, rfl,
    (setup_ignores_model_load configured env_demo 5 0).2.2.2.1 demo_setup_trace
      demo_cursor_setup demo_connect_phase demo_cursor_connected rfl demo_setup rfl⟩

/-- C7 as stated fails: in `env_demo` the tensor allocation fails, `setup`
returns all the same with nothing but the recorded status to show for it, and
the node proceeds to the main cycle: the first tick reconnects to the broker,
makes its session maintenance call and reads the sensors. -/
theorem model_load_failure_counterexample :
    env_demo.allocate_ok = false ∧
    setup env_demo 5 Cursor.start = some (demo_setup_trace, demo_cursor_setup) ∧
    run_checked configured env_demo 5 1 =
      some (Outcome.undefined (demo_setup_trace ++ (demo_connect_phase ++ demo_sampling))
        Fault.tensor_write) ∧
    (demo_connect_phase ++ demo_sampling).any is_connect_attempt = true ∧
    (demo_connect_phase ++ demo_sampling).any is_pump = true ∧
    (demo_connect_phase ++ demo_sampling).any is_sample = true :=
  ⟨rfl, demo_setup, rfl, rfl, rfl, rfl⟩

/-! ## The tick -/

/-- C8: in the calls of every tick that returns, whatever the outcome of its
publish and whether or not it had to reconnect first, the session maintenance
call `client.loop()` occurs exactly once; and the tick returns as soon as one
of the probes the fuel allows finds the session live. -/
theorem pump_once_per_tick (id : NodeIdentity) (env : Env) (fuel : Nat) (cur : Cursor) :
    (∀ (evs : List Event) (cur1 : Cursor), loop id env fuel cur = some (evs, cur1) →
      evs.countP is_pump = 1) ∧
    (∀ k, k ≤ fuel → env.client_connected (cur.probe + k) = true →
      ∃ r, loop id env fuel cur = some r) := by
  constructor
  · intro evs cur1 h
    obtain ⟨pre, cur2, rfl, hall, -⟩ := loop_shape id env fuel cur evs cur1 h
    obtain ⟨gas, flame, temp, humidity, score, r, g, b, text, ok, hb⟩ :=
      loop_body_shape id env cur2
    rw [List.countP_append,
      countP_of_reconnect_steps is_pump not_pump_of_reconnect_step pre hall, hb]
    rfl
  · intro k hk hlive
    exact loop_returns id env cur k fuel hlive hk

theorem pump_once_per_tick_witness :
    loop configured env_demo 5 demo_cursor_setup = some (demo_tick_trace, demo_cursor_tick) ∧
    demo_tick_trace.countP is_pump = 1 :=
  ⟨demo_loop,
    (pump_once_per_tick configured env_demo 5 demo_cursor_setup).1 demo_tick_trace
      demo_cursor_tick demo_loop⟩

/-- C9, as the code has it: in the calls of every tick that returns, the
sensor reads come before the interpreter invocation, which comes before the
colour of the indicator is set, which comes before the publish call, which
comes before the colour is shown on the pixel; and the tick returns as soon as
one of the probes the fuel allows finds the session live. -/
theorem tick_steps_in_order (id : NodeIdentity) (env : Env) (fuel : Nat) (cur : Cursor) :
    (∀ (evs : List Event) (cur1 : Cursor), loop id env fuel cur = some (evs, cur1) →
      occurs_before is_sample is_infer evs = true ∧
      occurs_before is_infer is_set_colour evs = true ∧
      occurs_before is_set_colour is_publish evs = true ∧
      occurs_before is_publish is_show evs = true) ∧
    (∀ k, k ≤ fuel → env.client_connected (cur.probe + k) = true →
      ∃ r, loop id env fuel cur = some r) := by
  constructor
  · intro evs cur1 h
    obtain ⟨pre, cur2, rfl, hall, -⟩ := loop_shape id env fuel cur evs cur1 h
    obtain ⟨gas, flame, temp, humidity, score, r, g, b, text, ok, hb⟩ :=
      loop_body_shape id env cur2
    rw [occurs_before_of_reconnect_steps is_sample is_infer not_sample_of_reconnect_step
        not_infer_of_reconnect_step pre _ hall,
      occurs_before_of_reconnect_steps is_infer is_set_colour not_infer_of_reconnect_step
        not_set_colour_of_reconnect_step pre _ hall,
      occurs_before_of_reconnect_steps is_set_colour is_publish not_set_colour_of_reconnect_step
        not_publish_of_reconnect_step pre _ hall,
      occurs_before_of_reconnect_steps is_publish is_show not_publish_of_reconnect_step
        not_show_of_reconnect_step pre _ hall, hb]
    exact ⟨rfl, rfl, rfl, rfl⟩
  · intro k hk hlive
    exact loop_returns id env cur k fuel hlive hk

theorem tick_steps_in_order_witness :
    loop configured env_demo 5 demo_cursor_setup = some (demo_tick_trace, demo_cursor_tick) ∧
    (occurs_before is_sample is_infer demo_tick_trace = true ∧
     occurs_before is_infer is_set_colour demo_tick_trace = true ∧
     occurs_before is_set_colour is_publish demo_tick_trace = true ∧
     occurs_before is_publish is_show demo_tick_trace = true) :=
  ⟨demo_loop,
    (tick_steps_in_order configured env_demo 5 demo_cursor_setup).1 demo_tick_trace
      demo_cursor_tick demo_loop⟩

/-- C9 as stated fails: in the tick of `env_demo` the indicator is not driven
before the publish call, because the colour is shown on the pixel after it; the
order sample, infer, indicate, publish of the specification does not hold. -/
theorem indicate_before_publish_counterexample :
    loop configured env_demo 5 demo_cursor_setup = some (demo_tick_trace, demo_cursor_tick) ∧
    occurs_before is_indicate is_publish demo_tick_trace = false ∧
    spec_tick_order demo_tick_trace = false ∧
    demo_from_publish =
      [Event.client_publish "tinyml/anomaly"
         "Node1A|Floor 1|Zone A|Anomaly detected! Gas:42 Flame:1 Temp:30 Hum:55" false,
       Event.rgb_show,
       Event.delay 2000] :=
  ⟨demo_loop, rfl, rfl, rfl⟩

end Esp32Enhanced
